import Mathlib

/-!
# Air-Quality-Index: the lookup service, its HTTP endpoint, and the client components

A shallow embedding of `server/src/services/aqiService.js` (`getAqiByCity`),
`server/src/routes/api.js` (`GET /api/search`), and the logic of
`client/src/components/AqiCard.jsx` (`getAqiColor`, `getAqiStatus`, the `parameters` cells)
and `client/src/components/SearchBox.jsx` (`getCountryFlag`, the suggestion objects, the
keyboard and suggestion state of the component as a state machine).

* JavaScript strings are Lean `String`s (well-formed UTF-16, as a decoded query string is);
  the string methods the code uses (`split(sep)[0]`, `trim`, `includes`) are defined on the
  character list. `toLowerCase` and `toUpperCase` are parameters: their Unicode tables are
  the runtime's.
* Payload fields are typed records; a field that may be missing is an `Option` or a
  `JsValue`, and reading a property of a missing object is the `TypeError` of the runtime.
* The three `axios.get` calls and the clock are the environment of one lookup (`Env`).
* The module-level `aqiCache` is explicit state threaded through every call.
* Every run also returns the chronological list of effects it performed (`Event`),
  so that "calls upstream" and "does not touch the cache" are statements about a run.
* `console.log` / `console.error` lines have no effect on results and are omitted.
-/

namespace AirQuality

/-! ## JavaScript strings -/

/-- ECMAScript `WhiteSpace` and `LineTerminator` code points: what `String.prototype.trim` strips. -/
def isWhiteSpace (c : Char) : Bool :=
  c.toNat == 0x9 || c.toNat == 0xA || c.toNat == 0xB || c.toNat == 0xC || c.toNat == 0xD ||
  c.toNat == 0x20 || c.toNat == 0xA0 || c.toNat == 0x1680 ||
  (0x2000 ≤ c.toNat && c.toNat ≤ 0x200A) ||
  c.toNat == 0x2028 || c.toNat == 0x2029 || c.toNat == 0x202F || c.toNat == 0x205F ||
  c.toNat == 0x3000 || c.toNat == 0xFEFF

/-- Character-list form of `trim`: white space removed from both ends. -/
def trimChars (l : List Char) : List Char :=
  ((l.dropWhile isWhiteSpace).reverse.dropWhile isWhiteSpace).reverse

/-- JavaScript `s.trim()`. -/
def jsTrim (s : String) : String := ⟨trimChars s.data⟩

/-- JavaScript `s.split(sep)[0]` for a one-character separator: the part of `s` before the
first occurrence of `sep`, or all of `s` when `sep` does not occur. -/
def splitHead (sep : Char) (s : String) : String := ⟨s.data.takeWhile (fun c => c != sep)⟩

/-- JavaScript `s.includes(t)`: `t` occurs in `s` as a contiguous substring. -/
def includes (s t : String) : Bool := s.data.tails.any (fun u => t.data.isPrefixOf u)

/-- The geocoding query of `getAqiByCity`:
`let cityName = city.split(',')[0].trim(); cityName = cityName.split('(')[0].trim();` -/
def cityName (city : String) : String :=
  let cityName := jsTrim (splitHead ',' city)
  jsTrim (splitHead '(' cityName)

/-- The data model's wording of the geocoding query: the input truncated at the first
character that is a comma or an opening parenthesis, then trimmed. -/
def truncateAtCommaOrParen (city : String) : String :=
  jsTrim ⟨city.data.takeWhile (fun c => !(c == ',' || c == '('))⟩

/-- The cache key of `getAqiByCity`: `city.toLowerCase().trim()`. The Unicode lower-casing of
the runtime is the parameter `toLowerCase`. -/
def normalizedCity (toLowerCase : String → String) (city : String) : String :=
  jsTrim (toLowerCase city)

/-- ASCII lower-casing, an instance of the `toLowerCase` parameter for concrete runs. -/
def asciiLower (s : String) : String := ⟨s.data.map Char.toLower⟩

/-! ## `Date.prototype.toISOString` -/

/-- Decimal rendering of `n` left-padded with zeros to at least `width` digits. -/
def padZero (width n : Nat) : String :=
  let digits := (Nat.toDigits 10 n)
  ⟨List.replicate (width - digits.length) '0' ++ digits⟩

/-- The rendering `new Date(ms).toISOString()` of an instant given in milliseconds since the
epoch (`YYYY-MM-DDTHH:mm:ss.sssZ`, proleptic Gregorian calendar, UTC). -/
def toISOString (ms : Nat) : String :=
  let days := ms / 86400000
  let rest := ms % 86400000
  let z := days + 719468
  let era := z / 146097
  let doe := z % 146097
  let yoe := (doe + doe / 36524 - doe / 1460 - doe / 146096) / 365
  let doy := doe + yoe / 100 - 365 * yoe - yoe / 4
  let mp := (5 * doy + 2) / 153
  let day := doy - (153 * mp + 2) / 5 + 1
  let month := if mp < 10 then mp + 3 else mp - 9
  let year := yoe + era * 400 + (if month ≤ 2 then 1 else 0)
  let yearText := if year ≤ 9999 then padZero 4 year else "+" ++ padZero 6 year
  yearText ++ "-" ++ padZero 2 month ++ "-" ++ padZero 2 day ++ "T" ++
    padZero 2 (rest / 3600000) ++ ":" ++ padZero 2 (rest / 60000 % 60) ++ ":" ++
    padZero 2 (rest / 1000 % 60) ++ "." ++ padZero 3 (rest % 1000) ++ "Z"

/-! ## Values, errors, payloads -/

/-- A scalar JSON value as read from a payload field, or `undefined` for a missing field. -/
inductive JsValue where
  | undefined
  | null
  | number (q : Rat)
  | string (s : String)
  deriving DecidableEq, Repr

/-- A thrown JavaScript error: `message`, and the `response` an HTTP-client error may carry. -/
structure JsError where
  message : String
  response : Option String := none
  deriving DecidableEq, Repr

/-- The error of `new Error(message)`. -/
def JsError.ofMessage (message : String) : JsError := { message := message }

/-- Settled state of an awaited `axios.get`: rejected with an error, or resolved with the
response `data`. -/
inductive Outcome (α : Type) where
  | rejected (error : JsError)
  | resolved (data : α)
  deriving DecidableEq, Repr

/-- One geocoding result. -/
structure GeoLocation where
  name : String
  country : String
  latitude : Rat
  longitude : Rat
  deriving DecidableEq, Repr

/-- The geocoder payload `{results: [...]}` or `{}` (`results = none`, also for any other
falsy `results`). -/
structure GeoData where
  results : Option (List GeoLocation)
  deriving DecidableEq, Repr

/-- The `current` object of the air-quality payload. -/
structure AqiCurrent where
  us_aqi : JsValue
  pm10 : JsValue
  pm2_5 : JsValue
  ozone : JsValue
  nitrogen_dioxide : JsValue
  carbon_monoxide : JsValue
  deriving DecidableEq, Repr

/-- The air-quality payload; `current = none` when the payload has no `current` object. -/
structure AqiData where
  current : Option AqiCurrent
  deriving DecidableEq, Repr

/-- The `current` object of the weather payload. -/
structure WeatherCurrent where
  temperature_2m : JsValue
  deriving DecidableEq, Repr

/-- The weather payload; `current = none` when the payload has no `current` object. -/
structure WeatherData where
  current : Option WeatherCurrent
  deriving DecidableEq, Repr

/-- The `city` object of a record. -/
structure City where
  name : String
  deriving DecidableEq, Repr

/-- One `{v: ...}` entry of `iaqi`. -/
structure IaqiEntry where
  v : JsValue
  deriving DecidableEq, Repr

/-- The `iaqi` object of a record. -/
structure Iaqi where
  pm25 : IaqiEntry
  pm10 : IaqiEntry
  o3 : IaqiEntry
  no2 : IaqiEntry
  co : IaqiEntry
  t : IaqiEntry
  deriving DecidableEq, Repr

/-- The `time` object of a record. -/
structure Time where
  s : String
  deriving DecidableEq, Repr

/-- The object `mappedData` built by `getAqiByCity` and stored in the cache. -/
structure MappedData where
  aqi : JsValue
  city : City
  iaqi : Iaqi
  time : Time
  deriving DecidableEq, Repr

/-- What `getAqiByCity` returns: `{ ...mappedData, source }`. -/
structure AqiReading extends MappedData where
  source : String
  deriving DecidableEq, Repr

/-! ## The cache -/

/-- One stored value with the instant (ms) after which it is no longer served. -/
structure CacheEntry where
  v : MappedData
  t : Nat
  deriving DecidableEq, Repr

/-- Contents of `aqiCache`: key/entry pairs, at most one per key. -/
abbrev Store := List (String × CacheEntry)

/-- The `stdTTL` option of `new NodeCache({ stdTTL: 3600 })`, in seconds. -/
def stdTTL : Nat := 3600

/-- Modelled from the spec: the `node-cache` package behind `aqiCache` is not part of the
sources. `get(key)` at clock reading `now` returns the stored value while the entry has not
expired and `absent` afterwards, an expired entry vanishing on that lookup. -/
def Store.get (c : Store) (key : String) (now : Nat) : Option MappedData × Store :=
  match c.lookup key with
  | none => (none, c)
  | some e => if e.t < now then (none, c.filter (fun p => p.1 != key)) else (some e.v, c)

/-- Modelled from the spec: the `node-cache` package behind `aqiCache` is not part of the
sources. `set(key, value)` at clock reading `now` replaces the entry of `key`; the new entry
lives for the fixed TTL counted from this write. -/
def Store.set (c : Store) (key : String) (value : MappedData) (now : Nat) : Store :=
  (key, { v := value, t := now + stdTTL * 1000 }) :: c.filter (fun p => p.1 != key)

/-! ## Environment and runs -/

/-- The argument the route passes on: `req.query.city` is `undefined` when the parameter is
missing, a string, or (for repeated or bracketed parameters) an array or object. -/
inductive QueryValue where
  | undefined
  | string (s : String)
  | other
  deriving DecidableEq, Repr

/-- An effect performed during a run. -/
inductive Event where
  | service (city : QueryValue)
  | cacheGet (key : String)
  | cacheSet (key : String)
  | geocode (name : String)
  | airQuality (latitude longitude : Rat)
  | weather (latitude longitude : Rat)
  deriving DecidableEq, Repr

/-- The surroundings of one lookup: how each upstream API answers a request, and the clock
readings at the cache read, at `new Date()` and at the cache write. `none` as response data
stands for a `null` body. -/
structure Env where
  geocode : String → Outcome (Option GeoData)
  airQuality : Rat → Rat → Outcome (Option AqiData)
  weather : Rat → Rat → Outcome (Option WeatherData)
  tGet : Nat
  tMerge : Nat
  tSet : Nat

/-- Outcome of running an `async` function against the cache: the value it resolves with or
the error it rejects with, the cache afterwards, and the effects in order. -/
structure Run (α : Type) where
  result : Except JsError α
  cache : Store
  trace : List Event

/-- The `TypeError` the runtime throws when a property of `null` or `undefined` is read. -/
def cannotRead (base prop : String) : JsError :=
  JsError.ofMessage ("Cannot read properties of " ++ base ++ " (reading \x27" ++ prop ++ "\x27)")

/-! ## `getAqiByCity` -/

/-- The `try` block of `getAqiByCity`: geocode `cityName`, fetch air quality and weather for
the first result, build `mappedData`, store it under `normalizedCity`, and return it tagged
`source: "api"`. Any rejected call or failing property read leaves the block as an error. -/
def fetchFresh (env : Env) (city normalizedCity : String) (aqiCache : Store) : Run AqiReading :=
  let cityName := cityName city
  match env.geocode cityName with
  | .rejected error => ⟨.error error, aqiCache, [.geocode cityName]⟩
  | .resolved none => ⟨.error (cannotRead "null" "results"), aqiCache, [.geocode cityName]⟩
  | .resolved (some geoData) =>
    match geoData.results with
    | none => ⟨.error (JsError.ofMessage "City not found"), aqiCache, [.geocode cityName]⟩
    | some [] => ⟨.error (JsError.ofMessage "City not found"), aqiCache, [.geocode cityName]⟩
    | some (location :: _) =>
      let latitude := location.latitude
      let longitude := location.longitude
      match env.airQuality latitude longitude with
      | .rejected error =>
        ⟨.error error, aqiCache, [.geocode cityName, .airQuality latitude longitude]⟩
      | .resolved aqiData =>
        let calls : List Event :=
          [.geocode cityName, .airQuality latitude longitude, .weather latitude longitude]
        match env.weather latitude longitude with
        | .rejected error => ⟨.error error, aqiCache, calls⟩
        | .resolved weatherData =>
          match aqiData with
          | none => ⟨.error (cannotRead "null" "current"), aqiCache, calls⟩
          | some aqiData =>
            match weatherData with
            | none => ⟨.error (cannotRead "null" "current"), aqiCache, calls⟩
            | some weatherData =>
              match weatherData.current with
              | none => ⟨.error (cannotRead "undefined" "temperature_2m"), aqiCache, calls⟩
              | some weatherCurrent =>
                let temperature := weatherCurrent.temperature_2m
                match aqiData.current with
                | none => ⟨.error (cannotRead "undefined" "us_aqi"), aqiCache, calls⟩
                | some current =>
                  let mappedData : MappedData :=
                    { aqi := current.us_aqi
                      city := { name := location.name ++ ", " ++ location.country }
                      iaqi :=
                        { pm25 := { v := current.pm2_5 }
                          pm10 := { v := current.pm10 }
                          o3 := { v := current.ozone }
                          no2 := { v := current.nitrogen_dioxide }
                          co := { v := current.carbon_monoxide }
                          t := { v := temperature } }
                      time := { s := toISOString env.tMerge } }
                  ⟨.ok { toMappedData := mappedData, source := "api" },
                    aqiCache.set normalizedCity mappedData env.tSet,
                    calls ++ [.cacheSet normalizedCity]⟩

/-- The function `getAqiByCity(city)`: a cache read under the normalized key, the cached
record (an object, hence truthy) tagged `source: "cache"` on a hit, otherwise the `try`
block; the `catch` block
rethrows an error whose message is `City not found` and replaces every other error by
`new Error("Failed to fetch AQI data")`. A non-string argument fails at
`city.toLowerCase()`, before the cache is read. -/
def getAqiByCity (toLowerCase : String → String) (env : Env) (city : QueryValue)
    (aqiCache : Store) : Run AqiReading :=
  match city with
  | .undefined => ⟨.error (cannotRead "undefined" "toLowerCase"), aqiCache, []⟩
  | .other => ⟨.error (JsError.ofMessage "city.toLowerCase is not a function"), aqiCache, []⟩
  | .string city =>
    let normalizedCity := normalizedCity toLowerCase city
    match aqiCache.get normalizedCity env.tGet with
    | (some cachedData, cache) =>
      ⟨.ok { toMappedData := cachedData, source := "cache" }, cache, [.cacheGet normalizedCity]⟩
    | (none, cache) =>
      let attempt := fetchFresh env city normalizedCity cache
      let trace := Event.cacheGet normalizedCity :: attempt.trace
      match attempt.result with
      | .ok reading => ⟨.ok reading, attempt.cache, trace⟩
      | .error error =>
        if error.message = "City not found" then ⟨.error error, attempt.cache, trace⟩
        else ⟨.error (JsError.ofMessage "Failed to fetch AQI data"), attempt.cache, trace⟩

/-! ## `GET /api/search` -/

/-- Body passed to `res.json`: an `{error: ...}` object or a record. -/
inductive Body where
  | error (error : String)
  | data (reading : AqiReading)
  deriving DecidableEq, Repr

/-- An HTTP response: status code and JSON body. -/
structure Response where
  status : Nat
  body : Body
  deriving DecidableEq, Repr

/-- Outcome of handling one request: the response sent, the cache afterwards, the effects. -/
structure Handled where
  response : Response
  cache : Store
  trace : List Event

/-- JavaScript `!city` for a query value: true for `undefined` and for the empty string. -/
def isFalsy : QueryValue → Bool
  | .undefined => true
  | .string s => s == ""
  | .other => false

/-- The handler of `router.get("/search", ...)`: 400 when `!city`; otherwise one call of
`getAqiByCity`, answered with the record (status 200), or, on an error, with 404 when the
message includes `Unknown station` and with 500 otherwise. -/
def searchRoute (toLowerCase : String → String) (env : Env) (city : QueryValue)
    (aqiCache : Store) : Handled :=
  if isFalsy city then
    ⟨{ status := 400, body := .error "City name is required" }, aqiCache, []⟩
  else
    let run := getAqiByCity toLowerCase env city aqiCache
    let trace := Event.service city :: run.trace
    match run.result with
    | .ok data => ⟨{ status := 200, body := .data data }, run.cache, trace⟩
    | .error error =>
      if includes error.message "Unknown station" then
        ⟨{ status := 404, body := .error "City not found" }, run.cache, trace⟩
      else
        ⟨{ status := 500, body := .error "Failed to fetch AQI data" }, run.cache, trace⟩

/-! ## Vocabulary of the claims -/

/-- The geocoder answered the query of `city` with a payload whose `results` list is absent
or empty. -/
def noResults (env : Env) (city : String) : Bool :=
  match env.geocode (cityName city) with
  | .resolved (some geoData) =>
    match geoData.results with
    | none => true
    | some [] => true
    | some (_ :: _) => false
  | _ => false

/-- All three upstream calls of a lookup of `city` resolve with payloads of the documented
shape: a first geocoding result, and a `current` object from air quality and from weather. -/
def upstreamComplete (env : Env) (city : String) : Bool :=
  match env.geocode (cityName city) with
  | .resolved (some geoData) =>
    match geoData.results with
    | some (location :: _) =>
      match env.airQuality location.latitude location.longitude,
        env.weather location.latitude location.longitude with
      | .resolved (some aqiData), .resolved (some weatherData) =>
        aqiData.current.isSome && weatherData.current.isSome
      | _, _ => false
    | _ => false
  | _ => false

/-- The error `e` is the one with which a call that the lookup of `city` performs is
rejected: the geocoder call, or, once the geocoder has resolved with a first result, the
air-quality call for that result, or, once that has resolved too, the weather call. -/
def PerformedRejection (env : Env) (city : String) (e : JsError) : Prop :=
  match env.geocode (cityName city) with
  | .rejected error => error = e
  | .resolved (some geoData) =>
    match geoData.results with
    | some (location :: _) =>
      match env.airQuality location.latitude location.longitude with
      | .rejected error => error = e
      | .resolved _ =>
        match env.weather location.latitude location.longitude with
        | .rejected error => error = e
        | .resolved _ => False
    | _ => False
  | _ => False

/-- What the HTTP client does on the calls the lookup of `city` performs: the message of a
rejection is composed by the client or the transport (`Request failed with status code 503`,
`Network Error`, ...), so it is not the text `City not found` that `getAqiByCity` throws
itself. Calls the lookup does not perform are not constrained. -/
def ForeignMessages (env : Env) (city : String) : Prop :=
  ∀ e, PerformedRejection env city e → e.message ≠ "City not found"

/-- The cache holds no live entry under the key of `city` at the lookup's cache read. -/
def CacheMiss (toLowerCase : String → String) (env : Env) (city : String) (aqiCache : Store) :
    Prop :=
  (aqiCache.get (normalizedCity toLowerCase city) env.tGet).1 = none

/-- A live entry: the cache holds an entry under the key of `city` that has not expired at
the lookup's cache read. -/
def LiveEntry (toLowerCase : String → String) (env : Env) (city : String) (aqiCache : Store)
    (v : MappedData) : Prop :=
  ∃ e, aqiCache.lookup (normalizedCity toLowerCase city) = some e ∧ env.tGet ≤ e.t ∧ e.v = v

/-- The event records an invocation of `getAqiByCity`. -/
def isServiceCall : Event → Bool
  | .service _ => true
  | _ => false

/-- Number of `getAqiByCity` invocations recorded in a trace. -/
def serviceCalls (trace : List Event) : Nat := (trace.filter isServiceCall).length

/-- An outcome with the error of a rejection blanked out. -/
def Outcome.eraseError {α : Type} : Outcome α → Outcome α
  | .rejected _ => .rejected (JsError.ofMessage "")
  | .resolved data => .resolved data

/-- Two environments differ at most in the errors (message, payload) their rejected upstream
calls carry: same clock, and every call is rejected in both or resolves with the same data
in both. -/
def SameUpToErrors (env env2 : Env) : Prop :=
  (∀ name, (env.geocode name).eraseError = (env2.geocode name).eraseError) ∧
  (∀ latitude longitude, (env.airQuality latitude longitude).eraseError =
    (env2.airQuality latitude longitude).eraseError) ∧
  (∀ latitude longitude, (env.weather latitude longitude).eraseError =
    (env2.weather latitude longitude).eraseError) ∧
  env.tGet = env2.tGet ∧ env.tMerge = env2.tMerge ∧ env.tSet = env2.tSet

/-- The cache after a sequence of lookups, each with its own environment. -/
def runAll (toLowerCase : String → String) : List (Env × String) → Store → Store
  | [], aqiCache => aqiCache
  | (env, city) :: rest, aqiCache =>
    runAll toLowerCase rest (getAqiByCity toLowerCase env (.string city) aqiCache).cache

/-- Every lookup of the sequence is served from the cache (`source: "cache"`). -/
def AllHits (toLowerCase : String → String) : List (Env × String) → Store → Prop
  | [], _ => True
  | (env, city) :: rest, aqiCache =>
    (∃ r, (getAqiByCity toLowerCase env (.string city) aqiCache).result = .ok r ∧
      r.source = "cache") ∧
    AllHits toLowerCase rest (getAqiByCity toLowerCase env (.string city) aqiCache).cache

/-- The record `fetchFresh` builds from a location and the two `current` objects. -/
def mappedOf (location : GeoLocation) (current : AqiCurrent) (weatherCurrent : WeatherCurrent)
    (tMerge : Nat) : MappedData :=
  { aqi := current.us_aqi
    city := { name := location.name ++ ", " ++ location.country }
    iaqi :=
      { pm25 := { v := current.pm2_5 }
        pm10 := { v := current.pm10 }
        o3 := { v := current.ozone }
        no2 := { v := current.nitrogen_dioxide }
        co := { v := current.carbon_monoxide }
        t := { v := weatherCurrent.temperature_2m } }
    time := { s := toISOString tMerge } }

/-! ## Concrete environments -/

/-- The end-to-end example of the specification: London. -/
def london : Env where
  geocode := fun _ => .resolved (some ⟨some [⟨"London", "United Kingdom", 51.5, -0.12⟩]⟩)
  airQuality := fun _ _ =>
    .resolved (some ⟨some ⟨.number 42, .number 18, .number 9, .number 60, .number 15,
      .number 300⟩⟩)
  weather := fun _ _ => .resolved (some ⟨some ⟨.number 14.2⟩⟩)
  tGet := 1700000000000
  tMerge := 1700000000500
  tSet := 1700000000501

/-- The geocoder knows no place: it answers every query with `{}`. -/
def nowhere : Env where
  geocode := fun _ => .resolved (some ⟨none⟩)
  airQuality := fun _ _ => .resolved none
  weather := fun _ _ => .resolved none
  tGet := 1700000000000
  tMerge := 1700000000500
  tSet := 1700000000501

/-- London with the weather service down: the geocoder and the air-quality call answer as
in the London example, the weather call is rejected with a 503 error. -/
def londonWeatherDown : Env :=
  { london with
    weather := fun _ _ => .rejected (JsError.ofMessage "Request failed with status code 503") }

/-- Every upstream call is rejected with the given error. -/
def failing (error : JsError) : Env where
  geocode := fun _ => .rejected error
  airQuality := fun _ _ => .rejected error
  weather := fun _ _ => .rejected error
  tGet := 1700000000000
  tMerge := 1700000000500
  tSet := 1700000000501

/-- The record of the London example. -/
def londonRecord : MappedData :=
  mappedOf ⟨"London", "United Kingdom", 51.5, -0.12⟩
    ⟨.number 42, .number 18, .number 9, .number 60, .number 15, .number 300⟩
    ⟨.number 14.2⟩ london.tMerge

/-- The causes of failure the claims list: the geocoder call is rejected or answers without
results, the air-quality call is rejected, or the air-quality call resolves and the weather
call is rejected. -/
def FailureCause (env : Env) (city : String) : Prop :=
  (∃ e, env.geocode (cityName city) = .rejected e) ∨
  noResults env city = true ∨
  (∃ location rest,
    env.geocode (cityName city) = .resolved (some ⟨some (location :: rest)⟩) ∧
    ((∃ e, env.airQuality location.latitude location.longitude = .rejected e) ∨
      (∃ data e, env.airQuality location.latitude location.longitude = .resolved data ∧
        env.weather location.latitude location.longitude = .rejected e)))

/-! ## `AqiCard.jsx` -/

/-- The function `getAqiColor(aqi)` on an integer index. -/
def getAqiColor (aqi : Int) : String :=
  if aqi ≤ 50 then "bg-gradient-to-br from-green-400 to-green-600"
  else if aqi ≤ 100 then "bg-gradient-to-br from-yellow-400 to-yellow-600"
  else if aqi ≤ 150 then "bg-gradient-to-br from-orange-400 to-orange-600"
  else if aqi ≤ 200 then "bg-gradient-to-br from-red-400 to-red-600"
  else if aqi ≤ 300 then "bg-gradient-to-br from-purple-400 to-purple-600"
  else "bg-gradient-to-br from-red-700 to-red-900"

/-- The function `getAqiStatus(aqi)` on an integer index. -/
def getAqiStatus (aqi : Int) : String :=
  if aqi ≤ 50 then "Good"
  else if aqi ≤ 100 then "Moderate"
  else if aqi ≤ 150 then "Unhealthy for Sensitive Groups"
  else if aqi ≤ 200 then "Unhealthy"
  else if aqi ≤ 300 then "Very Unhealthy"
  else "Hazardous"

/-- JavaScript `x.toFixed(fractionDigits)` for a number of magnitude below 10^21 (from there
on JavaScript switches to exponent notation, which is not spelled out here): the sign, then
the integer `n` nearest to `|x| * 10^fractionDigits` (the larger one on a tie, that is the
floor of `|x| * 10^fractionDigits + 1/2`, computed on numerator and denominator) written in
decimal, padded to more than `fractionDigits` digits, with a point before the last
`fractionDigits` digits. -/
def toFixed (x : Rat) (fractionDigits : Nat) : String :=
  let n := (2 * x.num.natAbs * 10 ^ fractionDigits + x.den) / (2 * x.den)
  let m := Nat.toDigits 10 n
  let m := List.replicate (fractionDigits + 1 - m.length) '0' ++ m
  let a := m.take (m.length - fractionDigits)
  let b := m.drop (m.length - fractionDigits)
  ⟨(if x.num < 0 then ['-'] else []) ++ a ++ (if fractionDigits = 0 then [] else '.' :: b)⟩

/-- The `iaqi` object as the card receives it: each parameter object may be absent. -/
structure CardIaqi where
  pm25 : Option IaqiEntry
  pm10 : Option IaqiEntry
  o3 : Option IaqiEntry
  no2 : Option IaqiEntry
  co : Option IaqiEntry
  t : Option IaqiEntry
  deriving DecidableEq, Repr

/-- One entry of the `parameters` array of `AqiCard` (icon and styling classes left out);
`decimals` is `none` where the entry declares none. -/
structure Parameter where
  label : String
  value : Option IaqiEntry
  unit : String
  decimals : Option Nat := none
  deriving DecidableEq, Repr

/-- The `parameters` array of `AqiCard`. -/
def parameters (iaqi : CardIaqi) : List Parameter :=
  [{ label := "PM2.5", value := iaqi.pm25, unit := "µg/m³" },
   { label := "PM10", value := iaqi.pm10, unit := "µg/m³" },
   { label := "O₃", value := iaqi.o3, unit := "µg/m³" },
   { label := "NO₂", value := iaqi.no2, unit := "µg/m³" },
   { label := "CO", value := iaqi.co, unit := "µg/m³", decimals := some 0 },
   { label := "Temperature", value := iaqi.t, unit := "°C" }]

/-- JavaScript `decimals || 1`: the declared number unless it is missing or zero. -/
def decimalsOrOne : Option Nat → Nat
  | none => 1
  | some 0 => 1
  | some (d + 1) => d + 1

/-- The text a parameter cell shows:
`param.value && param.value.v != null ? param.value.v.toFixed(param.decimals || 1) : "N/A"`.
A `v` that is a string has no `toFixed`, and the call throws. -/
def parameterText (param : Parameter) : Except JsError String :=
  match param.value with
  | none => .ok "N/A"
  | some value =>
    match value.v with
    | .undefined => .ok "N/A"
    | .null => .ok "N/A"
    | .number x => .ok (toFixed x (decimalsOrOne param.decimals))
    | .string _ => .error (JsError.ofMessage "param.value.v.toFixed is not a function")

/-- Number of characters after the decimal point of a rendered number (0 without a point). -/
def fractionDigitsOf (text : String) : Nat :=
  if '.' ∈ text.data then (text.data.reverse.takeWhile (fun c => c != '.')).length else 0

/-! ## `SearchBox.jsx` -/

/-- The UTF-16 code units of a string, which is what `length`, `split("")` and `charCodeAt`
of JavaScript see: one unit for a character of the basic plane, a surrogate pair otherwise. -/
def utf16Units (s : String) : List Nat :=
  s.data.foldr (fun c units =>
    if c.toNat < 0x10000 then c.toNat :: units
    else (0xD800 + (c.toNat - 0x10000) / 0x400) :: (0xDC00 + (c.toNat - 0x10000) % 0x400) :: units)
    []

/-- JavaScript `String.fromCodePoint(...codePoints)` for code points that are scalar values. -/
def fromCodePoint (codePoints : List Nat) : String := ⟨codePoints.map Char.ofNat⟩

/-- ASCII upper-casing, an instance of the `toUpperCase` parameter for concrete runs. -/
def asciiUpper (s : String) : String := ⟨s.data.map Char.toUpper⟩

/-- The function `getCountryFlag(countryCode)`; `none` is a missing code. The Unicode
upper-casing of the runtime is the parameter `toUpperCase`. -/
def getCountryFlag (toUpperCase : String → String) (countryCode : Option String) : String :=
  match countryCode with
  | none => "🌍"
  | some countryCode =>
    if countryCode = "" ∨ (utf16Units countryCode).length ≠ 2 then "🌍"
    else
      let codePoints := (utf16Units (toUpperCase countryCode)).map (fun char => 127397 + char)
      fromCodePoint codePoints

/-- Position of an ASCII letter in the alphabet, counted from 0. -/
def alphabetPosition (c : Char) : Nat := c.toUpper.toNat - 65

/-- One suggestion of the dropdown; `admin1`, `latitude` and `longitude` are absent on the
hard-coded popular cities. -/
structure CityItem where
  name : String
  country : String
  emoji : String
  admin1 : Option String := none
  latitude : Option Rat := none
  longitude : Option Rat := none
  fullName : String
  deriving DecidableEq, Repr

/-- The constant `popularCities`. -/
def popularCities : List CityItem :=
  [{ name := "London", country := "United Kingdom", emoji := "🇬🇧",
     fullName := "London, United Kingdom" },
   { name := "New York", country := "United States", emoji := "🇺🇸",
     fullName := "New York, United States" },
   { name := "Tokyo", country := "Japan", emoji := "🇯🇵", fullName := "Tokyo, Japan" },
   { name := "Paris", country := "France", emoji := "🇫🇷", fullName := "Paris, France" },
   { name := "Dubai", country := "UAE", emoji := "🇦🇪", fullName := "Dubai, UAE" },
   { name := "Singapore", country := "Singapore", emoji := "🇸🇬",
     fullName := "Singapore, Singapore" },
   { name := "Mumbai", country := "India", emoji := "🇮🇳", fullName := "Mumbai, India" },
   { name := "Sydney", country := "Australia", emoji := "🇦🇺", fullName := "Sydney, Australia" },
   { name := "Berlin", country := "Germany", emoji := "🇩🇪", fullName := "Berlin, Germany" },
   { name := "Toronto", country := "Canada", emoji := "🇨🇦", fullName := "Toronto, Canada" }]

/-- One result of the geocoder as the dropdown reads it; a missing field is `none`. -/
structure SuggestResult where
  name : String
  country : Option String
  country_code : Option String
  admin1 : Option String
  latitude : Option Rat
  longitude : Option Rat
  deriving DecidableEq, Repr

/-- JavaScript `value || fallback` on an optional string: the fallback for a missing or
empty value. -/
def orElse (value : Option String) (fallback : String) : String :=
  match value with
  | none => fallback
  | some s => if s = "" then fallback else s

/-- Template-literal rendering of an optional string: `undefined` for a missing one. -/
def templateText (value : Option String) : String :=
  match value with
  | none => "undefined"
  | some s => s

/-- The `fullName` that `fetchCitySuggestions` builds:
the name, then `", " + admin1` when `admin1` is non-empty and differs from the name, then
`", "` and the country. -/
def buildFullName (result : SuggestResult) : String :=
  result.name ++
    (match result.admin1 with
      | none => ""
      | some admin1 => if admin1 ≠ "" ∧ admin1 ≠ result.name then ", " ++ admin1 else "") ++
    ", " ++ templateText result.country

/-- The object `fetchCitySuggestions` maps a geocoder result to. -/
def toCityItem (toUpperCase : String → String) (result : SuggestResult) : CityItem :=
  { name := result.name
    country := orElse result.country "Unknown"
    emoji := getCountryFlag toUpperCase result.country_code
    admin1 := some (orElse result.admin1 "")
    latitude := result.latitude
    longitude := result.longitude
    fullName := buildFullName result }

/-- The `searchQuery` of `handleCitySelect`: `cityItem.fullName || cityItem.name`. -/
def searchQuery (cityItem : CityItem) : String :=
  if cityItem.fullName = "" then cityItem.name else cityItem.fullName

/-- The payload of the suggestion request: `{results: [...]}` or without `results`. -/
structure SuggestData where
  results : Option (List SuggestResult)
  deriving DecidableEq, Repr

/-- The component state of `SearchBox`, with the pending debounce timer, the suggestion
requests awaiting their response, and the calls of `onSearch` made so far. -/
structure SearchState where
  city : String
  showDropdown : Bool
  selectedIndex : Int
  suggestions : List CityItem
  loading : Bool
  debounceTimer : Option String
  inFlight : List String
  searches : List String
  deriving DecidableEq, Repr

/-- The state after the first render. -/
def SearchState.initial : SearchState :=
  { city := "", showDropdown := false, selectedIndex := -1, suggestions := [],
    loading := false, debounceTimer := none, inFlight := [], searches := [] }

/-- What can happen to the component: the input handlers, the debounce timer firing, and
the response of a suggestion request arriving. -/
inductive SearchEvent where
  | inputChange (value : String)
  | timerFires
  | response (searchTerm : String) (outcome : Outcome (Option SuggestData))
  | focus
  | keyDown (key : String)

/-- The function `handleCitySelect(cityItem)`; `none` is `undefined`, on which reading
`fullName` throws. -/
def handleCitySelect (state : SearchState) (cityItem : Option CityItem) :
    Except JsError SearchState :=
  match cityItem with
  | none => .error (cannotRead "undefined" "fullName")
  | some cityItem =>
    .ok { state with
      city := searchQuery cityItem
      searches := state.searches ++ [searchQuery cityItem]
      showDropdown := false }

/-- JavaScript `suggestions[selectedIndex]`: `undefined` outside the list. -/
def itemAt (suggestions : List CityItem) (selectedIndex : Int) : Option CityItem :=
  if selectedIndex < 0 then none else suggestions.get? selectedIndex.toNat

/-- The function `handleKeyDown(e)` for the key `e.key`. -/
def handleKeyDown (state : SearchState) (key : String) : Except JsError SearchState :=
  if !state.showDropdown || state.suggestions.length = 0 then .ok state
  else if key = "ArrowDown" then
    .ok { state with
      selectedIndex :=
        if state.selectedIndex < (state.suggestions.length : Int) - 1
        then state.selectedIndex + 1 else state.selectedIndex }
  else if key = "ArrowUp" then
    .ok { state with
      selectedIndex := if state.selectedIndex > 0 then state.selectedIndex - 1 else -1 }
  else if key = "Enter" ∧ state.selectedIndex ≥ 0 then
    handleCitySelect state (itemAt state.suggestions state.selectedIndex)
  else if key = "Escape" then .ok { state with showDropdown := false }
  else .ok state

/-- The state updates of `fetchCitySuggestions` once the response has settled. -/
def applyResponse (toLowerCase toUpperCase : String → String) (state : SearchState)
    (searchTerm : String) (outcome : Outcome (Option SuggestData)) : SearchState :=
  match outcome with
  | .resolved (some { results := some results }) =>
    { state with suggestions := results.map (toCityItem toUpperCase), loading := false }
  | .resolved _ => { state with suggestions := [], loading := false }
  | .rejected _ =>
    { state with
      suggestions := popularCities.filter (fun c =>
        includes (toLowerCase c.name) (toLowerCase searchTerm))
      loading := false }

/-- One step of the component. `inputChange` is `handleInputChange` (it restarts the 300 ms
debounce timer); `timerFires` starts `fetchCitySuggestions` for the pending term (an empty
term shows the popular cities at once); `response` settles a request that is in flight;
`focus` is `handleInputFocus`; `keyDown` is `handleKeyDown`. -/
def SearchState.step (toLowerCase toUpperCase : String → String) (state : SearchState) :
    SearchEvent → Except JsError SearchState
  | .inputChange value =>
    .ok { state with
      city := value, showDropdown := true, selectedIndex := -1, debounceTimer := some value }
  | .timerFires =>
    match state.debounceTimer with
    | none => .ok state
    | some searchTerm =>
      if jsTrim searchTerm = "" then
        .ok { state with debounceTimer := none, suggestions := popularCities, loading := false }
      else
        .ok { state with
          debounceTimer := none, loading := true, inFlight := state.inFlight ++ [searchTerm] }
  | .response searchTerm outcome =>
    if searchTerm ∈ state.inFlight then
      .ok (applyResponse toLowerCase toUpperCase
        { state with inFlight := state.inFlight.erase searchTerm } searchTerm outcome)
    else .ok state
  | .focus =>
    .ok { state with
      showDropdown := true
      suggestions := if state.suggestions.length = 0 then popularCities else state.suggestions }
  | .keyDown key => handleKeyDown state key

/-- The state after a sequence of events, or the first error thrown by a handler. -/
def SearchState.run (toLowerCase toUpperCase : String → String) (state : SearchState) :
    List SearchEvent → Except JsError SearchState
  | [] => .ok state
  | event :: rest =>
    match state.step toLowerCase toUpperCase event with
    | .ok next => next.run toLowerCase toUpperCase rest
    | .error e => .error e

/-- The index invariant: `selectedIndex` is -1 or a valid index of `suggestions`. -/
def SearchState.IndexValid (state : SearchState) : Prop :=
  state.selectedIndex = -1 ∨
    (0 ≤ state.selectedIndex ∧ state.selectedIndex < (state.suggestions.length : Int))

/-- A geocoder result for London. -/
def londonResult : SuggestResult :=
  { name := "London", country := some "United Kingdom", country_code := some "GB",
    admin1 := some "England", latitude := some 51.5, longitude := some (-0.12) }

/-- The event sequence of the failing run: focus, type `Lon`, let the debounce timer fire,
press ArrowDown three times on the popular cities still shown, then the response with one
result arrives. -/
def staleIndexEvents : List SearchEvent :=
  [.focus, .inputChange "Lon", .timerFires, .keyDown "ArrowDown", .keyDown "ArrowDown",
    .keyDown "ArrowDown", .response "Lon" (.resolved (some ⟨some [londonResult]⟩))]

/-- The ASCII letters. -/
def asciiLetters : List Char := "ABCDEFGHIJKLMNOPQRSTUVWXYZabcdefghijklmnopqrstuvwxyz".data

/-- The runtime upper-cases a string of ASCII letters letter by letter. -/
def UpperOnLetters (toUpperCase : String → String) : Prop :=
  ∀ s : String, (∀ c ∈ s.data, c.isAlpha = true) → toUpperCase s = asciiUpper s

/-! ## Lemmas on character lists -/

theorem dropWhile_takeWhile_ne (p : Char → Bool) (c : Char) (hc : p c = false) (l : List Char) :
    (l.dropWhile p).takeWhile (fun x => x != c) = (l.takeWhile (fun x => x != c)).dropWhile p := by
  induction l with
  | nil => rfl
  | cons x l ih =>
    by_cases hx : p x = true
    · have hxc : (x != c) = true := by
        simp only [bne_iff_ne, ne_eq]
        rintro rfl
        simp [hx] at hc
      simp [List.dropWhile_cons, List.takeWhile_cons, hx, hxc, ih]
    · by_cases hxc : (x != c) = true
      · simp [List.dropWhile_cons, List.takeWhile_cons, hx, hxc]
      · simp [List.dropWhile_cons, List.takeWhile_cons, hx, hxc]

theorem takeWhile_ne_append_singleton (c x : Char) (hx : x ≠ c) (l : List Char) :
    (l ++ [x]).takeWhile (fun y => y != c) =
      if c ∈ l then l.takeWhile (fun y => y != c) else l.takeWhile (fun y => y != c) ++ [x] := by
  induction l with
  | nil => simp [List.takeWhile_cons, hx]
  | cons y l ih =>
    by_cases hy : y = c
    · subst hy
      simp [List.takeWhile_cons]
    · have hcy : ¬ c = y := fun h => hy h.symm
      simp only [List.cons_append, List.takeWhile_cons, bne_iff_ne, ne_eq, hy, not_false_eq_true,
        decide_True, ↓reduceIte, ih, List.mem_cons, hcy, false_or]
      split <;> simp

theorem rdropWhile_takeWhile_rdropWhile (p : Char → Bool) (c : Char) (hc : p c = false)
    (l : List Char) :
    ((l.rdropWhile p).takeWhile (fun x => x != c)).rdropWhile p =
      (l.takeWhile (fun x => x != c)).rdropWhile p := by
  induction l using List.reverseRecOn with
  | nil => simp
  | append_singleton l x ih =>
    by_cases hx : p x = true
    · have hxc : x ≠ c := by
        rintro rfl
        simp [hx] at hc
      rw [List.rdropWhile_concat_pos _ _ _ hx, ih, takeWhile_ne_append_singleton c x hxc]
      split
      · rfl
      · rw [List.rdropWhile_concat_pos _ _ _ hx]
    · rw [List.rdropWhile_concat_neg _ _ _ hx]

theorem dropWhile_rdropWhile_dropWhile (p : Char → Bool) (l : List Char) :
    ((l.dropWhile p).rdropWhile p).dropWhile p = (l.dropWhile p).rdropWhile p := by
  obtain ⟨t, ht⟩ := List.rdropWhile_prefix p (l.dropWhile p)
  cases hr : (l.dropWhile p).rdropWhile p with
  | nil => rfl
  | cons x r =>
    rw [hr] at ht
    have hhead := List.head?_dropWhile_not p l
    rw [← ht] at hhead
    simp only [List.cons_append, List.head?_cons] at hhead
    simp [List.dropWhile_cons, hhead]

theorem trimChars_eq (l : List Char) :
    trimChars l = (l.dropWhile isWhiteSpace).rdropWhile isWhiteSpace := rfl

theorem trimChars_takeWhile_trimChars (c : Char) (hc : isWhiteSpace c = false) (l : List Char) :
    trimChars ((trimChars l).takeWhile (fun x => x != c)) =
      trimChars (l.takeWhile (fun x => x != c)) := by
  simp only [trimChars_eq]
  rw [← dropWhile_takeWhile_ne isWhiteSpace c hc, dropWhile_rdropWhile_dropWhile,
    rdropWhile_takeWhile_rdropWhile isWhiteSpace c hc, dropWhile_takeWhile_ne isWhiteSpace c hc]

theorem trimChars_idem (l : List Char) : trimChars (trimChars l) = trimChars l := by
  simp only [trimChars_eq]
  rw [dropWhile_rdropWhile_dropWhile, List.rdropWhile_idempotent]

theorem takeWhile_comma_paren (l : List Char) :
    l.takeWhile (fun c => !(c == ',' || c == '(')) =
      (l.takeWhile (fun c => c != ',')).takeWhile (fun c => c != '(') := by
  rw [List.takeWhile_takeWhile]
  congr 1
  funext a
  by_cases h1 : a = ',' <;> by_cases h2 : a = '(' <;> simp [h1, h2]

/-- The two-step derivation and the one-pass truncation agree on every character list. -/
theorem cityChars_eq (l : List Char) :
    trimChars ((trimChars (l.takeWhile (fun c => c != ','))).takeWhile (fun c => c != '(')) =
      trimChars (l.takeWhile (fun c => !(c == ',' || c == '('))) := by
  rw [trimChars_takeWhile_trimChars '(' (by decide), takeWhile_comma_paren]

theorem mem_trimChars {c : Char} {l : List Char} (h : c ∈ trimChars l) : c ∈ l := by
  rw [trimChars_eq] at h
  exact (List.dropWhile_sublist _).subset (( List.rdropWhile_prefix _ _).subset h)

theorem not_mem_takeWhile_ne (c : Char) (l : List Char) :
    c ∉ l.takeWhile (fun x => x != c) := by
  intro h
  simpa using List.mem_takeWhile_imp h

theorem head?_trimChars (l : List Char) (c : Char) (h : (trimChars l).head? = some c) :
    isWhiteSpace c = false := by
  have hd := dropWhile_rdropWhile_dropWhile isWhiteSpace l
  rw [← trimChars_eq] at hd
  have hn := List.head?_dropWhile_not isWhiteSpace (trimChars l)
  rw [hd, h] at hn
  simpa using hn

theorem getLast?_trimChars (l : List Char) (c : Char) (h : (trimChars l).getLast? = some c) :
    isWhiteSpace c = false := by
  rw [trimChars_eq] at h
  have hne : (l.dropWhile isWhiteSpace).rdropWhile isWhiteSpace ≠ [] := by
    intro h0
    rw [h0] at h
    simp at h
  have := List.rdropWhile_last_not isWhiteSpace (l.dropWhile isWhiteSpace) hne
  rw [List.getLast?_eq_getLast _ hne] at h
  simp only [Option.some.injEq] at h
  rw [h] at this
  simpa using this

/-! ## Lemmas on the cache -/

theorem Store.get_live (c : Store) (key : String) (now : Nat) (e : CacheEntry)
    (hfind : c.lookup key = some e) (hlive : now ≤ e.t) : c.get key now = (some e.v, c) := by
  simp [Store.get, hfind, Nat.not_lt.mpr hlive]

theorem Store.get_expired (c : Store) (key : String) (now : Nat) (e : CacheEntry)
    (hfind : c.lookup key = some e) (hdead : e.t < now) : (c.get key now).1 = none := by
  simp [Store.get, hfind, hdead]

theorem Store.get_hit (c : Store) (key : String) (now : Nat) (v : MappedData)
    (h : (c.get key now).1 = some v) :
    c.get key now = (some v, c) ∧ ∃ e, c.lookup key = some e ∧ now ≤ e.t ∧ e.v = v := by
  unfold Store.get at h ⊢
  cases hfind : c.lookup key with
  | none => simp [hfind] at h
  | some e =>
    by_cases hdead : e.t < now
    · simp [hfind, hdead] at h
    · simp only [hfind, hdead, ↓reduceIte, Option.some.injEq] at h ⊢
      exact ⟨by rw [h], e, rfl, Nat.not_lt.mp hdead, h⟩

theorem Store.lookup_set (c : Store) (key : String) (value : MappedData) (now : Nat) :
    (c.set key value now).lookup key = some { v := value, t := now + stdTTL * 1000 } := by
  simp [Store.set, List.lookup]

/-! ## Lemmas on `fetchFresh` and `getAqiByCity` -/

theorem fetchFresh_complete (env : Env) (city key : String) (c : Store)
    (location : GeoLocation) (rest : List GeoLocation) (current : AqiCurrent)
    (weatherCurrent : WeatherCurrent)
    (hgeo : env.geocode (cityName city) = .resolved (some ⟨some (location :: rest)⟩))
    (haqi : env.airQuality location.latitude location.longitude =
      .resolved (some ⟨some current⟩))
    (hweather : env.weather location.latitude location.longitude =
      .resolved (some ⟨some weatherCurrent⟩)) :
    fetchFresh env city key c =
      ⟨.ok { toMappedData := mappedOf location current weatherCurrent env.tMerge, source := "api" },
        c.set key (mappedOf location current weatherCurrent env.tMerge) env.tSet,
        [.geocode (cityName city), .airQuality location.latitude location.longitude,
          .weather location.latitude location.longitude, .cacheSet key]⟩ := by
  simp [fetchFresh, hgeo, haqi, hweather, mappedOf]

theorem fetchFresh_source (env : Env) (city key : String) (c : Store) (r : AqiReading)
    (h : (fetchFresh env city key c).result = .ok r) : r.source = "api" := by
  unfold fetchFresh at h
  dsimp only at h
  repeat' split at h
  all_goals first
    | (simp only [reduceCtorEq] at h; done)
    | (simp only [Except.ok.injEq] at h; rw [← h])

theorem geocode_mem_fetchFresh (env : Env) (city key : String) (c : Store) :
    Event.geocode (cityName city) ∈ (fetchFresh env city key c).trace := by
  unfold fetchFresh
  dsimp only
  repeat' split
  all_goals simp

theorem fetchFresh_noResults (env : Env) (city key : String) (c : Store)
    (h : noResults env city = true) :
    fetchFresh env city key c =
      ⟨.error (JsError.ofMessage "City not found"), c, [.geocode (cityName city)]⟩ := by
  unfold noResults at h
  unfold fetchFresh
  dsimp only at h ⊢
  repeat' split at h
  all_goals first
    | (simp only [Bool.false_eq_true] at h; done)
    | simp [*]

theorem fetchFresh_error (env : Env) (city key : String) (c : Store) (e : JsError)
    (h : (fetchFresh env city key c).result = .error e) :
    (noResults env city = true ∧ e = JsError.ofMessage "City not found") ∨
    (noResults env city = false ∧ upstreamComplete env city = false ∧
      (PerformedRejection env city e ∨ e = cannotRead "null" "results" ∨
        e = cannotRead "null" "current" ∨
        e = cannotRead "undefined" "temperature_2m" ∨ e = cannotRead "undefined" "us_aqi")) := by
  unfold fetchFresh at h
  unfold noResults upstreamComplete PerformedRejection
  dsimp only at h ⊢
  repeat' split at h
  all_goals simp_all

theorem fetchFresh_ok_complete (env : Env) (city key : String) (c : Store) (r : AqiReading)
    (h : (fetchFresh env city key c).result = .ok r) : upstreamComplete env city = true := by
  unfold fetchFresh at h
  unfold upstreamComplete
  dsimp only at h ⊢
  repeat' split at h
  all_goals simp_all

theorem fetchFresh_of_complete (env : Env) (city key : String) (c : Store)
    (h : upstreamComplete env city = true) :
    ∃ location current weatherCurrent,
      fetchFresh env city key c =
        ⟨.ok { toMappedData := mappedOf location current weatherCurrent env.tMerge,
               source := "api" },
          c.set key (mappedOf location current weatherCurrent env.tMerge) env.tSet,
          [.geocode (cityName city), .airQuality location.latitude location.longitude,
            .weather location.latitude location.longitude, .cacheSet key]⟩ := by
  unfold upstreamComplete at h
  repeat' split at h
  all_goals try (simp only [Bool.false_eq_true] at h)
  rename_i geoData hgeo _ location rest hres _ _ aqiData weatherData haqi hweather
  simp only [Bool.and_eq_true, Option.isSome_iff_exists] at h
  obtain ⟨⟨current, hcur⟩, ⟨weatherCurrent, hwc⟩⟩ := h
  refine ⟨location, current, weatherCurrent, ?_⟩
  apply fetchFresh_complete env city key c location rest current weatherCurrent
  · rw [hgeo]
    cases geoData
    simp_all
  · rw [haqi]
    cases aqiData
    simp_all
  · rw [hweather]
    cases weatherData
    simp_all

theorem fetchFresh_cache_of_error (env : Env) (city key : String) (c : Store) (e : JsError)
    (h : (fetchFresh env city key c).result = .error e) : (fetchFresh env city key c).cache = c := by
  unfold fetchFresh at h ⊢
  dsimp only at h ⊢
  repeat' split at h
  all_goals simp_all

theorem getAqiByCity_hit (toLowerCase : String → String) (env : Env) (city : String)
    (c : Store) (v : MappedData)
    (h : (c.get (normalizedCity toLowerCase city) env.tGet).1 = some v) :
    getAqiByCity toLowerCase env (.string city) c =
      ⟨.ok { toMappedData := v, source := "cache" }, c,
        [.cacheGet (normalizedCity toLowerCase city)]⟩ := by
  have hget := (Store.get_hit c _ _ v h).1
  simp [getAqiByCity, hget]

theorem getAqiByCity_miss_ok (toLowerCase : String → String) (env : Env) (city : String)
    (c : Store) (r : AqiReading) (hmiss : CacheMiss toLowerCase env city c)
    (h : (fetchFresh env city (normalizedCity toLowerCase city)
      (c.get (normalizedCity toLowerCase city) env.tGet).2).result = .ok r) :
    getAqiByCity toLowerCase env (.string city) c =
      ⟨.ok r,
        (fetchFresh env city (normalizedCity toLowerCase city)
          (c.get (normalizedCity toLowerCase city) env.tGet).2).cache,
        .cacheGet (normalizedCity toLowerCase city) ::
          (fetchFresh env city (normalizedCity toLowerCase city)
            (c.get (normalizedCity toLowerCase city) env.tGet).2).trace⟩ := by
  unfold CacheMiss at hmiss
  cases hget : c.get (normalizedCity toLowerCase city) env.tGet with
  | mk o c1 =>
    rw [hget] at hmiss h
    simp only at hmiss h
    subst hmiss
    simp [getAqiByCity, hget, h]

theorem getAqiByCity_miss_error (toLowerCase : String → String) (env : Env) (city : String)
    (c : Store) (e : JsError) (hmiss : CacheMiss toLowerCase env city c)
    (h : (fetchFresh env city (normalizedCity toLowerCase city)
      (c.get (normalizedCity toLowerCase city) env.tGet).2).result = .error e) :
    getAqiByCity toLowerCase env (.string city) c =
      ⟨.error (if e.message = "City not found" then e
          else JsError.ofMessage "Failed to fetch AQI data"),
        (fetchFresh env city (normalizedCity toLowerCase city)
          (c.get (normalizedCity toLowerCase city) env.tGet).2).cache,
        .cacheGet (normalizedCity toLowerCase city) ::
          (fetchFresh env city (normalizedCity toLowerCase city)
            (c.get (normalizedCity toLowerCase city) env.tGet).2).trace⟩ := by
  unfold CacheMiss at hmiss
  cases hget : c.get (normalizedCity toLowerCase city) env.tGet with
  | mk o c1 =>
    rw [hget] at hmiss h
    simp only at hmiss h
    subst hmiss
    by_cases hm : e.message = "City not found" <;> simp [getAqiByCity, hget, h, hm]

theorem serviceCalls_fetchFresh (env : Env) (city key : String) (c : Store) :
    serviceCalls (fetchFresh env city key c).trace = 0 := by
  unfold fetchFresh
  dsimp only
  repeat' split
  all_goals simp [serviceCalls, isServiceCall]

theorem serviceCalls_getAqiByCity (toLowerCase : String → String) (env : Env)
    (city : QueryValue) (c : Store) :
    serviceCalls (getAqiByCity toLowerCase env city c).trace = 0 := by
  cases city with
  | undefined => rfl
  | other => rfl
  | string city =>
    cases hfst : (c.get (normalizedCity toLowerCase city) env.tGet).1 with
    | some v => rw [getAqiByCity_hit _ _ _ _ v hfst]; rfl
    | none =>
      have hs := serviceCalls_fetchFresh env city (normalizedCity toLowerCase city)
        (c.get (normalizedCity toLowerCase city) env.tGet).2
      cases hres : (fetchFresh env city (normalizedCity toLowerCase city)
          (c.get (normalizedCity toLowerCase city) env.tGet).2).result with
      | ok r =>
        rw [getAqiByCity_miss_ok _ _ _ _ r hfst hres]
        simpa [serviceCalls, isServiceCall] using hs
      | error e =>
        rw [getAqiByCity_miss_error _ _ _ _ e hfst hres]
        simpa [serviceCalls, isServiceCall] using hs

theorem getAqiByCity_error_message (toLowerCase : String → String) (env : Env)
    (city : QueryValue) (c : Store) (e : JsError)
    (h : (getAqiByCity toLowerCase env city c).result = .error e) :
    e.message = "City not found" ∨ e.message = "Failed to fetch AQI data" ∨
      e.message = "Cannot read properties of undefined (reading \x27toLowerCase\x27)" ∨
      e.message = "city.toLowerCase is not a function" := by
  cases city with
  | undefined =>
    simp only [getAqiByCity, Except.error.injEq] at h
    subst h
    right; right; left; rfl
  | other =>
    simp only [getAqiByCity, Except.error.injEq] at h
    subst h
    right; right; right; rfl
  | string city =>
    cases hfst : (c.get (normalizedCity toLowerCase city) env.tGet).1 with
    | some v => rw [getAqiByCity_hit _ _ _ _ v hfst] at h; simp at h
    | none =>
      cases hres : (fetchFresh env city (normalizedCity toLowerCase city)
          (c.get (normalizedCity toLowerCase city) env.tGet).2).result with
      | ok r => rw [getAqiByCity_miss_ok _ _ _ _ r hfst hres] at h; simp at h
      | error e1 =>
        rw [getAqiByCity_miss_error _ _ _ _ e1 hfst hres] at h
        simp only [Except.error.injEq] at h
        subst h
        by_cases hm : e1.message = "City not found"
        · left; simp [hm]
        · right; left; simp [hm, JsError.ofMessage]

theorem searchRoute_of_error (toLowerCase : String → String) (env : Env) (city : QueryValue)
    (c : Store) (e : JsError) (htruthy : isFalsy city = false)
    (h : (getAqiByCity toLowerCase env city c).result = .error e) :
    (searchRoute toLowerCase env city c).response =
      { status := 500, body := .error "Failed to fetch AQI data" } := by
  have hinc : includes e.message "Unknown station" = false := by
    rcases getAqiByCity_error_message toLowerCase env city c e h with hm | hm | hm | hm <;>
      rw [hm] <;> decide
  simp [searchRoute, htruthy, h, hinc]

theorem searchRoute_of_ok (toLowerCase : String → String) (env : Env) (city : QueryValue)
    (c : Store) (r : AqiReading) (htruthy : isFalsy city = false)
    (h : (getAqiByCity toLowerCase env city c).result = .ok r) :
    (searchRoute toLowerCase env city c).response = { status := 200, body := .data r } := by
  simp [searchRoute, htruthy, h]

theorem Outcome.eraseError_eq {α : Type} (a b : Outcome α) (h : a.eraseError = b.eraseError) :
    (∃ e1 e2, a = .rejected e1 ∧ b = .rejected e2) ∨ (∃ d, a = .resolved d ∧ b = .resolved d) := by
  cases a <;> cases b <;> simp_all [Outcome.eraseError]

theorem fetchFresh_sameUpToErrors (env env2 : Env) (city key : String) (c : Store)
    (hsame : SameUpToErrors env env2) :
    (fetchFresh env city key c).result.toOption = (fetchFresh env2 city key c).result.toOption := by
  obtain ⟨hg, ha, hw, -, hm, -⟩ := hsame
  rcases Outcome.eraseError_eq _ _ (hg (cityName city)) with ⟨e1, e2, h1, h2⟩ | ⟨d, h1, h2⟩
  · simp [fetchFresh, h1, h2, Except.toOption]
  · rcases d with _ | ⟨⟨_ | _ | ⟨location, rest⟩⟩⟩
    · simp [fetchFresh, h1, h2, Except.toOption]
    · simp [fetchFresh, h1, h2, Except.toOption]
    · simp [fetchFresh, h1, h2, Except.toOption]
    · rcases Outcome.eraseError_eq _ _ (ha location.latitude location.longitude) with
        ⟨e1, e2, h3, h4⟩ | ⟨d, h3, h4⟩
      · simp [fetchFresh, h1, h2, h3, h4, Except.toOption]
      · rcases Outcome.eraseError_eq _ _ (hw location.latitude location.longitude) with
          ⟨e1, e2, h5, h6⟩ | ⟨d2, h5, h6⟩
        · simp [fetchFresh, h1, h2, h3, h4, h5, h6, Except.toOption]
        · rcases d with _ | ⟨⟨_ | current⟩⟩ <;> rcases d2 with _ | ⟨⟨_ | weatherCurrent⟩⟩ <;>
            simp [fetchFresh, h1, h2, h3, h4, h5, h6, hm, Except.toOption]

theorem getAqiByCity_sameUpToErrors (toLowerCase : String → String) (env env2 : Env)
    (city : QueryValue) (c : Store) (hsame : SameUpToErrors env env2) :
    (getAqiByCity toLowerCase env city c).result.toOption =
      (getAqiByCity toLowerCase env2 city c).result.toOption := by
  have ht : env.tGet = env2.tGet := hsame.2.2.2.1
  cases city with
  | undefined => rfl
  | other => rfl
  | string city =>
    cases hfst : (c.get (normalizedCity toLowerCase city) env.tGet).1 with
    | some v =>
      rw [getAqiByCity_hit _ _ _ _ v hfst, getAqiByCity_hit _ _ _ _ v (ht ▸ hfst)]
    | none =>
      have hfst2 : CacheMiss toLowerCase env2 city c := by
        unfold CacheMiss
        rw [← ht]
        exact hfst
      have hff := fetchFresh_sameUpToErrors env env2 city (normalizedCity toLowerCase city)
        (c.get (normalizedCity toLowerCase city) env.tGet).2 hsame
      cases hres : (fetchFresh env city (normalizedCity toLowerCase city)
          (c.get (normalizedCity toLowerCase city) env.tGet).2).result with
      | ok r =>
        cases hres2 : (fetchFresh env2 city (normalizedCity toLowerCase city)
            (c.get (normalizedCity toLowerCase city) env2.tGet).2).result with
        | ok r2 =>
          rw [getAqiByCity_miss_ok _ _ _ _ r hfst hres, getAqiByCity_miss_ok _ _ _ _ r2 hfst2 hres2]
          rw [← ht] at hres2
          rw [hres, hres2] at hff
          exact hff
        | error e2 =>
          rw [← ht] at hres2
          rw [hres, hres2] at hff
          simp [Except.toOption] at hff
      | error e =>
        cases hres2 : (fetchFresh env2 city (normalizedCity toLowerCase city)
            (c.get (normalizedCity toLowerCase city) env2.tGet).2).result with
        | ok r2 =>
          rw [← ht] at hres2
          rw [hres, hres2] at hff
          simp [Except.toOption] at hff
        | error e2 =>
          rw [getAqiByCity_miss_error _ _ _ _ e hfst hres,
            getAqiByCity_miss_error _ _ _ _ e2 hfst2 hres2]
          rfl

theorem searchRoute_response (toLowerCase : String → String) (env : Env) (city : QueryValue)
    (c : Store) (htruthy : isFalsy city = false) :
    (searchRoute toLowerCase env city c).response =
      match (getAqiByCity toLowerCase env city c).result.toOption with
      | some r => { status := 200, body := .data r }
      | none => { status := 500, body := .error "Failed to fetch AQI data" } := by
  cases h : (getAqiByCity toLowerCase env city c).result with
  | ok r => rw [searchRoute_of_ok _ _ _ _ r htruthy h]; rfl
  | error e => rw [searchRoute_of_error _ _ _ _ e htruthy h]; rfl

theorem getAqiByCity_cache_of_hit (toLowerCase : String → String) (env : Env) (city : String)
    (c : Store) (r : AqiReading)
    (h : (getAqiByCity toLowerCase env (.string city) c).result = .ok r)
    (hsrc : r.source = "cache") : (getAqiByCity toLowerCase env (.string city) c).cache = c := by
  cases hfst : (c.get (normalizedCity toLowerCase city) env.tGet).1 with
  | some v => rw [getAqiByCity_hit _ _ _ _ v hfst]
  | none =>
    cases hres : (fetchFresh env city (normalizedCity toLowerCase city)
        (c.get (normalizedCity toLowerCase city) env.tGet).2).result with
    | ok r1 =>
      rw [getAqiByCity_miss_ok _ _ _ _ r1 hfst hres] at h
      simp only [Except.ok.injEq] at h
      subst h
      have := fetchFresh_source _ _ _ _ _ hres
      rw [hsrc] at this
      exact absurd this (by decide)
    | error e =>
      rw [getAqiByCity_miss_error _ _ _ _ e hfst hres] at h
      simp at h

theorem runAll_of_allHits (toLowerCase : String → String) (hits : List (Env × String))
    (c : Store) (h : AllHits toLowerCase hits c) : runAll toLowerCase hits c = c := by
  induction hits generalizing c with
  | nil => rfl
  | cons x rest ih =>
    obtain ⟨env, city⟩ := x
    obtain ⟨⟨r, hr, hsrc⟩, hrest⟩ := h
    have hc := getAqiByCity_cache_of_hit toLowerCase env city c r hr hsrc
    simp only [runAll]
    rw [hc] at hrest ⊢
    exact ih c hrest

/-! ## The claims -/

/-- C1, the code as it is: on a cache miss with the geocoder answering `{}`, `getAqiByCity`
fails with `City not found`, and the handler, which looks for `Unknown station` in the
message, answers 500 `Failed to fetch AQI data` where the claim says 404 `City not found`. -/
theorem searchRoute_city_not_found_is_500 :
    CacheMiss asciiLower nowhere "Atlantis" [] ∧ noResults nowhere "Atlantis" = true ∧
    (getAqiByCity asciiLower nowhere (.string "Atlantis") []).result =
      .error (JsError.ofMessage "City not found") ∧
    (searchRoute asciiLower nowhere (.string "Atlantis") []).response =
      { status := 500, body := .error "Failed to fetch AQI data" } := by
  have hmiss : CacheMiss asciiLower nowhere "Atlantis" [] := rfl
  have hnone : noResults nowhere "Atlantis" = true := rfl
  have hres : (getAqiByCity asciiLower nowhere (.string "Atlantis") []).result =
      .error (JsError.ofMessage "City not found") := by
    rw [getAqiByCity_miss_error asciiLower nowhere "Atlantis" [] (JsError.ofMessage "City not found")
      hmiss (by rw [fetchFresh_noResults _ _ _ _ hnone])]
    rfl
  exact ⟨hmiss, hnone, hres, searchRoute_of_error _ _ _ _ _ (by decide) hres⟩

/-- C2: on a cache miss `getAqiByCity` fails with the message `City not found` if and only
if the geocoder returned a payload whose results list is absent or empty (and the error is
then `new Error("City not found")`); every other lookup that does not get all three
well-formed payloads (a rejected geocoder, air-quality or weather call, a `null` payload, a
payload without its `current` object) fails with `new Error("Failed to fetch AQI data")`;
a lookup that gets them does not fail. The hypothesis `hforeign` states what the HTTP client
does on the calls this lookup performs: a rejection carries a message of the client's or the
transport's making, not the text `City not found`. -/
theorem getAqiByCity_failure_classes (toLowerCase : String → String) (env : Env)
    (city : String) (c : Store) (hmiss : CacheMiss toLowerCase env city c)
    (hforeign : ForeignMessages env city) :
    ((∃ e, (getAqiByCity toLowerCase env (.string city) c).result = .error e ∧
        e.message = "City not found") ↔ noResults env city = true) ∧
    (noResults env city = true →
      (getAqiByCity toLowerCase env (.string city) c).result =
        .error (JsError.ofMessage "City not found")) ∧
    (noResults env city = false → upstreamComplete env city = false →
      (getAqiByCity toLowerCase env (.string city) c).result =
        .error (JsError.ofMessage "Failed to fetch AQI data")) ∧
    (upstreamComplete env city = true →
      ∃ r, (getAqiByCity toLowerCase env (.string city) c).result = .ok r) := by
  have hnone : noResults env city = true →
      (getAqiByCity toLowerCase env (.string city) c).result =
        .error (JsError.ofMessage "City not found") := by
    intro h
    rw [getAqiByCity_miss_error toLowerCase env city c (JsError.ofMessage "City not found")
      hmiss (by rw [fetchFresh_noResults _ _ _ _ h])]
    rfl
  have hother : noResults env city = false → upstreamComplete env city = false →
      (getAqiByCity toLowerCase env (.string city) c).result =
        .error (JsError.ofMessage "Failed to fetch AQI data") := by
    intro hn hu
    cases hres : (fetchFresh env city (normalizedCity toLowerCase city)
        (c.get (normalizedCity toLowerCase city) env.tGet).2).result with
    | ok r =>
      rw [fetchFresh_ok_complete _ _ _ _ r hres] at hu
      exact absurd hu (by decide)
    | error e =>
      rw [getAqiByCity_miss_error _ _ _ _ e hmiss hres]
      have hm : e.message ≠ "City not found" := by
        rcases fetchFresh_error _ _ _ _ e hres with ⟨h1, -⟩ | ⟨-, -, h | h | h | h | h⟩
        · rw [hn] at h1
          exact absurd h1 (by decide)
        · exact hforeign e h
        all_goals (rw [h]; decide)
      simp [hm]
  refine ⟨⟨?_, fun h => ⟨_, hnone h, rfl⟩⟩, hnone, hother, ?_⟩
  · rintro ⟨e, he, hmsg⟩
    cases hn : noResults env city with
    | true => rfl
    | false =>
      cases hu : upstreamComplete env city with
      | false =>
        rw [hother hn hu] at he
        simp only [Except.error.injEq] at he
        rw [← he] at hmsg
        exact absurd hmsg (by decide)
      | true =>
        obtain ⟨location, current, weatherCurrent, hff⟩ :=
          fetchFresh_of_complete env city (normalizedCity toLowerCase city)
            (c.get (normalizedCity toLowerCase city) env.tGet).2 hu
        rw [getAqiByCity_miss_ok _ _ _ _ _ hmiss (by rw [hff])] at he
        simp at he
  · intro hu
    obtain ⟨location, current, weatherCurrent, hff⟩ :=
      fetchFresh_of_complete env city (normalizedCity toLowerCase city)
        (c.get (normalizedCity toLowerCase city) env.tGet).2 hu
    exact ⟨_, by rw [getAqiByCity_miss_ok _ _ _ _ _ hmiss (by rw [hff])]⟩

/-- Witness for C2, at two inputs. For `Atlantis` the geocoder answers `{}` while the weather
client, which this lookup never reaches, would reject with the very text `City not found`:
the lookup fails with the not-found error. For `London` the geocoder and the air-quality
call resolve and the weather call is rejected with `Request failed with status code 503`:
the lookup fails with the generic error. -/
theorem getAqiByCity_failure_classes_witness :
    (CacheMiss asciiLower
        { nowhere with weather := fun _ _ => .rejected (JsError.ofMessage "City not found") }
        "Atlantis" [] ∧
      ForeignMessages
        { nowhere with weather := fun _ _ => .rejected (JsError.ofMessage "City not found") }
        "Atlantis" ∧
      (getAqiByCity asciiLower
        { nowhere with weather := fun _ _ => .rejected (JsError.ofMessage "City not found") }
        (.string "Atlantis") []).result = .error (JsError.ofMessage "City not found")) ∧
    (CacheMiss asciiLower
        londonWeatherDown
        "London" [] ∧
      ForeignMessages
        londonWeatherDown
        "London" ∧
      (getAqiByCity asciiLower
        londonWeatherDown
        (.string "London") []).result =
          .error (JsError.ofMessage "Failed to fetch AQI data")) := by
  have hmiss1 : CacheMiss asciiLower
      { nowhere with weather := fun _ _ => .rejected (JsError.ofMessage "City not found") }
      "Atlantis" [] := rfl
  have hforeign1 : ForeignMessages
      { nowhere with weather := fun _ _ => .rejected (JsError.ofMessage "City not found") }
      "Atlantis" := by
    intro e he
    exact he.elim
  have hmiss2 : CacheMiss asciiLower
      londonWeatherDown
      "London" [] := rfl
  have hforeign2 : ForeignMessages
      londonWeatherDown
      "London" := by
    intro e he
    have hmsg : JsError.ofMessage "Request failed with status code 503" = e := he
    rw [← hmsg]
    decide
  exact ⟨⟨hmiss1, hforeign1,
      (getAqiByCity_failure_classes asciiLower
        { nowhere with weather := fun _ _ => .rejected (JsError.ofMessage "City not found") }
        "Atlantis" [] hmiss1 hforeign1).2.1 rfl⟩,
    ⟨hmiss2, hforeign2,
      (getAqiByCity_failure_classes asciiLower
        londonWeatherDown
        "London" [] hmiss2 hforeign2).2.2.1 rfl rfl⟩⟩

/-- C3: the handler answers 400 `City name is required`, with no effect at all (no call of
`getAqiByCity`, no cache access, cache unchanged), exactly when the `city` parameter is
missing or the empty string, and a 400 status arises in no other way; for every other value
the trace holds exactly one `getAqiByCity` invocation, with that value as argument. -/
theorem searchRoute_validation (toLowerCase : String → String) (env : Env) (city : QueryValue)
    (c : Store) :
    (((searchRoute toLowerCase env city c).response =
          { status := 400, body := .error "City name is required" } ∧
        (searchRoute toLowerCase env city c).trace = [] ∧
        (searchRoute toLowerCase env city c).cache = c) ↔
      (city = .undefined ∨ city = .string "")) ∧
    ((searchRoute toLowerCase env city c).response.status = 400 →
      (city = .undefined ∨ city = .string "")) ∧
    (¬ (city = .undefined ∨ city = .string "") →
      (searchRoute toLowerCase env city c).trace.filter isServiceCall = [.service city] ∧
      serviceCalls (searchRoute toLowerCase env city c).trace = 1) := by
  have hfalsy : isFalsy city = true ↔ (city = .undefined ∨ city = .string "") := by
    cases city <;> simp [isFalsy]
  have hstatus : (searchRoute toLowerCase env city c).response.status = 400 →
      (city = .undefined ∨ city = .string "") := by
    intro h
    by_contra hne
    have ht : isFalsy city = false := by
      cases hf : isFalsy city with
      | false => rfl
      | true => exact absurd (hfalsy.mp hf) hne
    rw [searchRoute_response _ _ _ _ ht] at h
    split at h <;> simp at h
  refine ⟨⟨fun h => hstatus (by rw [h.1]), fun h => ?_⟩, hstatus, fun hne => ?_⟩
  · simp [searchRoute, hfalsy.mpr h]
  · have ht : isFalsy city = false := by
      cases hf : isFalsy city with
      | false => rfl
      | true => exact absurd (hfalsy.mp hf) hne
    have hcalls := serviceCalls_getAqiByCity toLowerCase env city c
    have htrace : (searchRoute toLowerCase env city c).trace =
        .service city :: (getAqiByCity toLowerCase env city c).trace := by
      simp only [searchRoute, ht, Bool.false_eq_true, ↓reduceIte]
      split <;> [rfl; (split <;> rfl)]
    have hnil : (getAqiByCity toLowerCase env city c).trace.filter isServiceCall = [] :=
      List.length_eq_zero.mp hcalls
    rw [htrace]
    simp [serviceCalls, List.filter_cons, isServiceCall, hnil]

/-- C4: whenever the lookup of a request fails, the handler answers 500 with the body
`Failed to fetch AQI data`; every error body the handler produces is one of the three fixed
strings; and two environments that differ only in the errors their rejected upstream calls
carry get the same response. -/
theorem searchRoute_error_bodies (toLowerCase : String → String) (env env2 : Env)
    (city : QueryValue) (c : Store) (hsame : SameUpToErrors env env2) :
    (∀ e, isFalsy city = false → (getAqiByCity toLowerCase env city c).result = .error e →
      (searchRoute toLowerCase env city c).response =
        { status := 500, body := .error "Failed to fetch AQI data" }) ∧
    (∀ msg, (searchRoute toLowerCase env city c).response.body = .error msg →
      msg = "City name is required" ∨ msg = "City not found" ∨
        msg = "Failed to fetch AQI data") ∧
    (searchRoute toLowerCase env2 city c).response =
      (searchRoute toLowerCase env city c).response := by
  refine ⟨fun e ht he => searchRoute_of_error _ _ _ _ e ht he, ?_, ?_⟩
  · intro msg h
    cases hf : isFalsy city with
    | true =>
      simp only [searchRoute, hf, ↓reduceIte, Body.error.injEq] at h
      exact Or.inl h.symm
    | false =>
      rw [searchRoute_response _ _ _ _ hf] at h
      split at h
      · simp at h
      · simp only [Body.error.injEq] at h
        exact Or.inr (Or.inr h.symm)
  · cases hf : isFalsy city with
    | true => simp [searchRoute, hf]
    | false =>
      rw [searchRoute_response _ _ _ _ hf, searchRoute_response _ _ _ _ hf,
        getAqiByCity_sameUpToErrors toLowerCase env env2 city c hsame]

/-- Witness for C4: the geocoder rejects once with `Network Error` and once with a 503 error
carrying a payload; both requests for `Paris` get the same 500 response. -/
theorem searchRoute_error_bodies_witness :
    SameUpToErrors (failing (JsError.ofMessage "Network Error"))
      (failing { message := "Request failed with status code 503", response := some "busy" }) ∧
    (searchRoute asciiLower
      (failing { message := "Request failed with status code 503", response := some "busy" })
      (.string "Paris") []).response =
        { status := 500, body := .error "Failed to fetch AQI data" } := by
  have hsame : SameUpToErrors (failing (JsError.ofMessage "Network Error"))
      (failing { message := "Request failed with status code 503", response := some "busy" }) :=
    ⟨fun _ => rfl, fun _ _ => rfl, fun _ _ => rfl, rfl, rfl, rfl⟩
  have h := searchRoute_error_bodies asciiLower (failing (JsError.ofMessage "Network Error"))
    (failing { message := "Request failed with status code 503", response := some "busy" })
    (.string "Paris") [] hsame
  refine ⟨hsame, ?_⟩
  rw [h.2.2]
  exact h.1 (JsError.ofMessage "Failed to fetch AQI data") rfl rfl

/-- C5: if a lookup of `a` succeeds from upstream (`source: "api"`), its cache write
happening at clock reading `env1.tSet`, and `b` has the same normalized key and is looked up
on the resulting cache no later than 3600 seconds after that write, then the second lookup
succeeds with the first record in every field except that `source` is `cache`. -/
theorem second_lookup_served_from_cache (toLowerCase : String → String) (env1 env2 : Env)
    (a b : String) (c : Store) (r1 : AqiReading)
    (hkey : normalizedCity toLowerCase a = normalizedCity toLowerCase b)
    (hfirst : (getAqiByCity toLowerCase env1 (.string a) c).result = .ok r1)
    (hapi : r1.source = "api")
    (hwithin : env2.tGet ≤ env1.tSet + 3600 * 1000) :
    ∃ r2, (getAqiByCity toLowerCase env2 (.string b)
        (getAqiByCity toLowerCase env1 (.string a) c).cache).result = .ok r2 ∧
      r2.toMappedData = r1.toMappedData ∧ r2.source = "cache" ∧
      r2.aqi = r1.aqi ∧ r2.city.name = r1.city.name ∧ r2.iaqi = r1.iaqi ∧
      r2.time.s = r1.time.s := by
  cases hfst : (c.get (normalizedCity toLowerCase a) env1.tGet).1 with
  | some v =>
    rw [getAqiByCity_hit _ _ _ _ v hfst] at hfirst
    simp only [Except.ok.injEq] at hfirst
    rw [← hfirst] at hapi
    simp at hapi
  | none =>
    cases hres : (fetchFresh env1 a (normalizedCity toLowerCase a)
        (c.get (normalizedCity toLowerCase a) env1.tGet).2).result with
    | error e =>
      rw [getAqiByCity_miss_error _ _ _ _ e hfst hres] at hfirst
      simp at hfirst
    | ok r =>
      obtain ⟨location, current, weatherCurrent, hff⟩ :=
        fetchFresh_of_complete env1 a (normalizedCity toLowerCase a)
          (c.get (normalizedCity toLowerCase a) env1.tGet).2
          (fetchFresh_ok_complete _ _ _ _ r hres)
      rw [getAqiByCity_miss_ok _ _ _ _ r hfst hres] at hfirst ⊢
      simp only [Except.ok.injEq] at hfirst
      subst hfirst
      rw [hff] at hres ⊢
      simp only [Except.ok.injEq] at hres
      subst hres
      have hlive := Store.get_live
        ((c.get (normalizedCity toLowerCase a) env1.tGet).2.set (normalizedCity toLowerCase a)
          (mappedOf location current weatherCurrent env1.tMerge) env1.tSet)
        (normalizedCity toLowerCase a) env2.tGet _ (Store.lookup_set _ _ _ _)
        (by simpa [stdTTL] using hwithin)
      rw [getAqiByCity_hit toLowerCase env2 b _
        (mappedOf location current weatherCurrent env1.tMerge) (by rw [← hkey, hlive])]
      exact ⟨_, rfl, rfl, rfl, rfl, rfl, rfl, rfl⟩

/-- Witness for C5: `London` is fetched, then `LONDON ` is looked up one hour after the
cache write and is served from the cache. -/
theorem second_lookup_served_from_cache_witness :
    normalizedCity asciiLower "London" = normalizedCity asciiLower "LONDON " ∧
    ∃ r2, (getAqiByCity asciiLower { london with tGet := london.tSet + 3600 * 1000 }
        (.string "LONDON ") (getAqiByCity asciiLower london (.string "London") []).cache).result
        = .ok r2 ∧ r2.aqi = .number 42 ∧ r2.source = "cache" := by
  have hkey : normalizedCity asciiLower "London" = normalizedCity asciiLower "LONDON " := by
    decide
  obtain ⟨r2, h, hdata, hsrc, -⟩ := second_lookup_served_from_cache asciiLower london
    { london with tGet := london.tSet + 3600 * 1000 } "London" "LONDON " []
    { toMappedData := londonRecord, source := "api" }
    hkey rfl rfl (Nat.le_refl _)
  exact ⟨hkey, r2, h, by rw [show r2.aqi = r2.toMappedData.aqi from rfl, hdata]; rfl, hsrc⟩

/-- C6: let an entry be written under key `k` at clock reading `w`, followed by any number
of lookups that are served from the cache. Those lookups leave the cache as the write left
it. A lookup of a city with key `k` whose cache read happens later than `w` + 3600 seconds is
not served from the cache: it calls the geocoder, and when all three upstream calls succeed
it calls all three, returns `source: "api"`, and stores its record under `k` with a lifetime
counted from its own write. -/
theorem entry_not_served_after_ttl (toLowerCase : String → String) (c : Store) (k : String)
    (v : MappedData) (w : Nat) (hits : List (Env × String)) (env : Env) (city : String)
    (hhits : AllHits toLowerCase hits (c.set k v w))
    (hk : normalizedCity toLowerCase city = k)
    (hlate : w + 3600 * 1000 < env.tGet) :
    runAll toLowerCase hits (c.set k v w) = c.set k v w ∧
    (∀ r, (getAqiByCity toLowerCase env (.string city)
        (runAll toLowerCase hits (c.set k v w))).result = .ok r → r.source = "api") ∧
    Event.geocode (cityName city) ∈ (getAqiByCity toLowerCase env (.string city)
        (runAll toLowerCase hits (c.set k v w))).trace ∧
    (upstreamComplete env city = true →
      ∃ (r : AqiReading) (location : GeoLocation), (getAqiByCity toLowerCase env (.string city)
          (runAll toLowerCase hits (c.set k v w))).result = .ok r ∧ r.source = "api" ∧
        (getAqiByCity toLowerCase env (.string city)
          (runAll toLowerCase hits (c.set k v w))).trace =
            [.cacheGet k, .geocode (cityName city),
              .airQuality location.latitude location.longitude,
              .weather location.latitude location.longitude, .cacheSet k] ∧
        (getAqiByCity toLowerCase env (.string city)
          (runAll toLowerCase hits (c.set k v w))).cache.lookup k =
            some { v := r.toMappedData, t := env.tSet + 3600 * 1000 }) := by
  have hrun := runAll_of_allHits toLowerCase hits (c.set k v w) hhits
  rw [hrun]
  subst hk
  have hmiss : CacheMiss toLowerCase env city
      (c.set (normalizedCity toLowerCase city) v w) :=
    Store.get_expired _ _ _ _ (Store.lookup_set _ _ _ _) (by simpa [stdTTL] using hlate)
  refine ⟨rfl, ?_, ?_, ?_⟩
  · intro r hr
    cases hres : (fetchFresh env city (normalizedCity toLowerCase city)
        ((c.set (normalizedCity toLowerCase city) v w).get
          (normalizedCity toLowerCase city) env.tGet).2).result with
    | ok r1 =>
      rw [getAqiByCity_miss_ok _ _ _ _ r1 hmiss hres] at hr
      simp only [Except.ok.injEq] at hr
      subst hr
      exact fetchFresh_source _ _ _ _ _ hres
    | error e =>
      rw [getAqiByCity_miss_error _ _ _ _ e hmiss hres] at hr
      simp at hr
  · have hmem := geocode_mem_fetchFresh env city (normalizedCity toLowerCase city)
      ((c.set (normalizedCity toLowerCase city) v w).get
        (normalizedCity toLowerCase city) env.tGet).2
    cases hres : (fetchFresh env city (normalizedCity toLowerCase city)
        ((c.set (normalizedCity toLowerCase city) v w).get
          (normalizedCity toLowerCase city) env.tGet).2).result with
    | ok r1 =>
      rw [getAqiByCity_miss_ok _ _ _ _ r1 hmiss hres]
      exact List.mem_cons_of_mem _ hmem
    | error e =>
      rw [getAqiByCity_miss_error _ _ _ _ e hmiss hres]
      exact List.mem_cons_of_mem _ hmem
  · intro hu
    obtain ⟨location, current, weatherCurrent, hff⟩ :=
      fetchFresh_of_complete env city (normalizedCity toLowerCase city)
        ((c.set (normalizedCity toLowerCase city) v w).get
          (normalizedCity toLowerCase city) env.tGet).2 hu
    rw [getAqiByCity_miss_ok _ _ _ _ _ hmiss (by rw [hff]), hff]
    exact ⟨_, location, rfl, rfl, rfl, Store.lookup_set _ _ _ _⟩

/-- Witness for C6: the London record is written at `london.tSet`, served once from the cache
a second later, and fetched again one millisecond after the hour has passed. -/
theorem entry_not_served_after_ttl_witness :
    AllHits asciiLower [({ london with tGet := london.tSet + 1000 }, "London")]
      (Store.set [] "london" londonRecord london.tSet) ∧
    normalizedCity asciiLower " LONDON" = "london" ∧
    london.tSet + 3600 * 1000 < london.tSet + 3600 * 1000 + 1 ∧
    ∀ r, (getAqiByCity asciiLower { london with tGet := london.tSet + 3600 * 1000 + 1 }
        (.string " LONDON")
        (runAll asciiLower [({ london with tGet := london.tSet + 1000 }, "London")]
          (Store.set [] "london" londonRecord london.tSet))).result = .ok r →
      r.source = "api" := by
  have hhits : AllHits asciiLower [({ london with tGet := london.tSet + 1000 }, "London")]
      (Store.set [] "london" londonRecord london.tSet) :=
    ⟨⟨_, rfl, rfl⟩, trivial⟩
  have hk : normalizedCity asciiLower " LONDON" = "london" := by decide
  have hlate : london.tSet + 3600 * 1000 < london.tSet + 3600 * 1000 + 1 := Nat.lt_succ_self _
  exact ⟨hhits, hk, hlate,
    (entry_not_served_after_ttl asciiLower [] "london" _ london.tSet _
      { london with tGet := london.tSet + 3600 * 1000 + 1 } " LONDON" hhits hk hlate).2.1⟩

/-- C7: when the cache holds a live entry for the normalized city, the lookup returns the
stored record tagged `source: "cache"`, performs the cache read and nothing else, and leaves
the cache as it was; a lookup at the same clock reading against any other behaviour of the
three upstream clients gives the same run. -/
theorem cache_hit_ignores_upstream (toLowerCase : String → String) (env env2 : Env)
    (city : String) (c : Store) (v : MappedData) (hclock : env2.tGet = env.tGet)
    (hlive : LiveEntry toLowerCase env city c v) :
    getAqiByCity toLowerCase env (.string city) c =
      ⟨.ok { toMappedData := v, source := "cache" }, c,
        [.cacheGet (normalizedCity toLowerCase city)]⟩ ∧
    getAqiByCity toLowerCase env2 (.string city) c =
      getAqiByCity toLowerCase env (.string city) c := by
  obtain ⟨e, hfind, hle, hv⟩ := hlive
  have hget : (c.get (normalizedCity toLowerCase city) env.tGet).1 = some v := by
    rw [Store.get_live c _ _ e hfind hle, hv]
  have hget2 : (c.get (normalizedCity toLowerCase city) env2.tGet).1 = some v := by
    rw [hclock]
    exact hget
  rw [getAqiByCity_hit _ _ _ _ v hget, getAqiByCity_hit _ _ _ _ v hget2]
  exact ⟨rfl, rfl⟩

/-- Witness for C7: with the London record cached and live, a lookup against upstream
clients that all fail is answered like one against working clients. -/
theorem cache_hit_ignores_upstream_witness :
    LiveEntry asciiLower london "London"
      [("london", { v := londonRecord, t := london.tGet })]
      londonRecord ∧
    getAqiByCity asciiLower (failing (JsError.ofMessage "Network Error")) (.string "London")
      [("london", { v := londonRecord, t := london.tGet })] =
    getAqiByCity asciiLower london (.string "London")
      [("london", { v := londonRecord, t := london.tGet })] := by
  have hlive : LiveEntry asciiLower london "London"
      [("london", { v := londonRecord, t := london.tGet })]
      londonRecord :=
    ⟨_, rfl, Nat.le_refl _, rfl⟩
  exact ⟨hlive, (cache_hit_ignores_upstream asciiLower london
    (failing (JsError.ofMessage "Network Error")) "London" _ _ rfl hlive).2⟩

/-- C8: on a cache miss where the geocoder's first result is `location`, the air-quality
payload has the `current` object `current` and the weather payload the `current` object
`weatherCurrent`, the lookup returns a record with `aqi = us_aqi`,
`city.name = name ++ ", " ++ country`, the five pollutant values and the temperature under
`iaqi`, `time.s` the ISO rendering of the clock reading at the merge, and `source: "api"`. -/
theorem fresh_record_fields (toLowerCase : String → String) (env : Env) (city : String)
    (c : Store) (location : GeoLocation) (rest : List GeoLocation) (current : AqiCurrent)
    (weatherCurrent : WeatherCurrent)
    (hmiss : CacheMiss toLowerCase env city c)
    (hgeo : env.geocode (cityName city) = .resolved (some ⟨some (location :: rest)⟩))
    (haqi : env.airQuality location.latitude location.longitude =
      .resolved (some ⟨some current⟩))
    (hweather : env.weather location.latitude location.longitude =
      .resolved (some ⟨some weatherCurrent⟩)) :
    ∃ r, (getAqiByCity toLowerCase env (.string city) c).result = .ok r ∧
      r.aqi = current.us_aqi ∧
      r.city.name = location.name ++ ", " ++ location.country ∧
      r.iaqi.pm25.v = current.pm2_5 ∧ r.iaqi.pm10.v = current.pm10 ∧
      r.iaqi.o3.v = current.ozone ∧ r.iaqi.no2.v = current.nitrogen_dioxide ∧
      r.iaqi.co.v = current.carbon_monoxide ∧ r.iaqi.t.v = weatherCurrent.temperature_2m ∧
      r.time.s = toISOString env.tMerge ∧ r.source = "api" := by
  have hff := fetchFresh_complete env city (normalizedCity toLowerCase city)
    (c.get (normalizedCity toLowerCase city) env.tGet).2 location rest current weatherCurrent
    hgeo haqi hweather
  rw [getAqiByCity_miss_ok _ _ _ _ _ hmiss (by rw [hff])]
  exact ⟨_, rfl, rfl, rfl, rfl, rfl, rfl, rfl, rfl, rfl, rfl, rfl⟩

/-- Witness for C8: the London example of the specification gives `aqi` 42 and the city name
`London, United Kingdom`. -/
theorem fresh_record_fields_witness :
    CacheMiss asciiLower london "London" [] ∧
    ∃ r, (getAqiByCity asciiLower london (.string "London") []).result = .ok r ∧
      r.aqi = .number 42 ∧ r.city.name = "London, United Kingdom" ∧
      r.iaqi.pm25.v = .number 9 ∧ r.iaqi.pm10.v = .number 18 ∧ r.iaqi.o3.v = .number 60 ∧
      r.iaqi.no2.v = .number 15 ∧ r.iaqi.co.v = .number 300 ∧ r.iaqi.t.v = .number 14.2 ∧
      r.time.s = "2023-11-14T22:13:20.500Z" ∧ r.source = "api" := by
  have hmiss : CacheMiss asciiLower london "London" [] := rfl
  obtain ⟨r, hr, h1, h2, h3, h4, h5, h6, h7, h8, h9, h10⟩ :=
    fresh_record_fields asciiLower london "London" []
      ⟨"London", "United Kingdom", 51.5, -0.12⟩ []
      ⟨.number 42, .number 18, .number 9, .number 60, .number 15, .number 300⟩
      ⟨.number 14.2⟩ hmiss rfl rfl rfl
  refine ⟨hmiss, r, hr, h1, ?_, h3, h4, h5, h6, h7, h8, ?_, h10⟩
  · rw [h2]
    decide
  · rw [h9]
    decide

/-- C9: the geocoding query derived from any input contains no `,` and no `(`, neither
starts nor ends with white space, and is the trimmed input when the input contains neither
character; the three examples of the specification derive `Ahmedabad`, `Ahmedabad` and
`Paris`. -/
theorem cityName_shape (city : String) :
    ',' ∉ (cityName city).data ∧ '(' ∉ (cityName city).data ∧
    (∀ ch, (cityName city).data.head? = some ch → isWhiteSpace ch = false) ∧
    (∀ ch, (cityName city).data.getLast? = some ch → isWhiteSpace ch = false) ∧
    (',' ∉ city.data → '(' ∉ city.data → cityName city = jsTrim city) ∧
    cityName "Ahmedabad, Gujarat, India" = "Ahmedabad" ∧
    cityName "Ahmedabad (Gujarat), India" = "Ahmedabad" ∧
    cityName "Paris" = "Paris" := by
  refine ⟨?_, ?_, ?_, ?_, ?_, by decide, by decide, by decide⟩
  · intro h
    exact not_mem_takeWhile_ne ',' city.data
      (mem_trimChars ((List.takeWhile_sublist _).subset (mem_trimChars h)))
  · intro h
    exact not_mem_takeWhile_ne '(' _ (mem_trimChars h)
  · intro ch h
    exact head?_trimChars _ ch h
  · intro ch h
    exact getLast?_trimChars _ ch h
  · intro hcomma hparen
    have h1 : city.data.takeWhile (fun c => !(c == ',' || c == '(')) = city.data := by
      rw [List.takeWhile_eq_self_iff]
      intro x hx
      have hx1 : x ≠ ',' := fun h => hcomma (h ▸ hx)
      have hx2 : x ≠ '(' := fun h => hparen (h ▸ hx)
      simp [hx1, hx2]
    show (⟨_⟩ : String) = ⟨_⟩
    congr 1
    have := cityChars_eq city.data
    rw [h1] at this
    exact this

/-- C10: for every input the two-step derivation of the code (split at `,`, trim, split at
`(`, trim) yields the same string as truncating the input at the first character that is a
comma or an opening parenthesis and trimming the result. -/
theorem cityName_eq_truncateAtCommaOrParen (city : String) :
    cityName city = truncateAtCommaOrParen city := by
  show (⟨_⟩ : String) = ⟨_⟩
  congr 1
  exact cityChars_eq city.data

/-! ## Frame lemmas on the cache -/

theorem Store.lookup_filter_ne (c : Store) (key other : String) (h : other ≠ key) :
    (c.filter (fun p => p.1 != key)).lookup other = c.lookup other := by
  induction c with
  | nil => rfl
  | cons p c ih =>
    obtain ⟨k, e⟩ := p
    by_cases hk : k = key
    · subst hk
      have hne : (other == k) = false := by simpa using h
      simp [List.filter_cons, List.lookup_cons, hne, ih]
    · by_cases ho : other = k
      · subst ho
        simp [List.filter_cons, List.lookup_cons, hk]
      · have hne : (other == k) = false := by simpa using ho
        simp [List.filter_cons, List.lookup_cons, hk, hne, ih]

theorem Store.lookup_filter_self (c : Store) (key : String) :
    (c.filter (fun p => p.1 != key)).lookup key = none := by
  induction c with
  | nil => rfl
  | cons p c ih =>
    obtain ⟨k, e⟩ := p
    by_cases hk : k = key
    · subst hk
      simp [List.filter_cons, ih]
    · have hne : (key == k) = false := by simpa using fun h : key = k => hk h.symm
      simp [List.filter_cons, List.lookup_cons, hk, hne, ih]

theorem Store.filter_of_lookup_none (c : Store) (key : String) (h : c.lookup key = none) :
    c.filter (fun p => p.1 != key) = c := by
  induction c with
  | nil => rfl
  | cons p c ih =>
    obtain ⟨k, e⟩ := p
    by_cases hk : key = k
    · subst hk
      simp [List.lookup_cons] at h
    · have hne : (key == k) = false := by simpa using hk
      have hkk : ¬ k = key := fun h => hk h.symm
      simp only [List.lookup_cons, hne] at h
      simp [List.filter_cons, hkk, ih h]

theorem Store.get_snd_of_miss (c : Store) (key : String) (now : Nat)
    (h : (c.get key now).1 = none) : (c.get key now).2 = c.filter (fun p => p.1 != key) := by
  unfold Store.get at h ⊢
  cases hfind : c.lookup key with
  | none => simp [Store.filter_of_lookup_none c key hfind]
  | some e =>
    by_cases hdead : e.t < now
    · simp [hdead]
    · simp [hfind, hdead] at h

theorem Store.lookup_set_ne (c : Store) (key other : String) (value : MappedData) (now : Nat)
    (h : other ≠ key) : (c.set key value now).lookup other = c.lookup other := by
  have hne : (other == key) = false := by simpa using h
  simp [Store.set, List.lookup_cons, hne, Store.lookup_filter_ne c key other h]

theorem Store.get_fst_congr (c c2 : Store) (key : String) (now : Nat)
    (h : c2.lookup key = c.lookup key) : (c2.get key now).1 = (c.get key now).1 := by
  unfold Store.get
  rw [h]
  cases c.lookup key with
  | none => rfl
  | some e => by_cases hdead : e.t < now <;> simp [hdead]

theorem cacheSet_not_mem_fetchFresh_of_error (env : Env) (city key : String) (c : Store)
    (e : JsError) (h : (fetchFresh env city key c).result = .error e) (k : String) :
    Event.cacheSet k ∉ (fetchFresh env city key c).trace := by
  unfold fetchFresh at h ⊢
  dsimp only at h ⊢
  repeat' split at h
  all_goals simp_all

/-- A failed lookup of a string was a cache miss whose `try` block failed; its cache is the
one the cache read left and its trace the read followed by the upstream calls made. -/
theorem getAqiByCity_of_error (toLowerCase : String → String) (env : Env) (city : String)
    (c : Store) (e : JsError)
    (h : (getAqiByCity toLowerCase env (.string city) c).result = .error e) :
    CacheMiss toLowerCase env city c ∧
    ∃ e1, (fetchFresh env city (normalizedCity toLowerCase city)
        (c.get (normalizedCity toLowerCase city) env.tGet).2).result = .error e1 ∧
      (getAqiByCity toLowerCase env (.string city) c).cache =
        (c.get (normalizedCity toLowerCase city) env.tGet).2 ∧
      (getAqiByCity toLowerCase env (.string city) c).trace =
        .cacheGet (normalizedCity toLowerCase city) ::
          (fetchFresh env city (normalizedCity toLowerCase city)
            (c.get (normalizedCity toLowerCase city) env.tGet).2).trace := by
  cases hfst : (c.get (normalizedCity toLowerCase city) env.tGet).1 with
  | some v =>
    rw [getAqiByCity_hit _ _ _ _ v hfst] at h
    simp at h
  | none =>
    refine ⟨hfst, ?_⟩
    cases hres : (fetchFresh env city (normalizedCity toLowerCase city)
        (c.get (normalizedCity toLowerCase city) env.tGet).2).result with
    | ok r =>
      rw [getAqiByCity_miss_ok _ _ _ _ r hfst hres] at h
      simp at h
    | error e1 =>
      refine ⟨e1, rfl, ?_, ?_⟩
      · rw [getAqiByCity_miss_error _ _ _ _ e1 hfst hres]
        exact fetchFresh_cache_of_error _ _ _ _ e1 hres
      · rw [getAqiByCity_miss_error _ _ _ _ e1 hfst hres]

/-- A lookup touches no key other than its own: the entry of every other key is as before. -/
theorem getAqiByCity_lookup_other (toLowerCase : String → String) (env : Env) (city : String)
    (c : Store) (other : String) (h : other ≠ normalizedCity toLowerCase city) :
    (getAqiByCity toLowerCase env (.string city) c).cache.lookup other = c.lookup other := by
  cases hfst : (c.get (normalizedCity toLowerCase city) env.tGet).1 with
  | some v => rw [getAqiByCity_hit _ _ _ _ v hfst]
  | none =>
    have hsnd := Store.get_snd_of_miss c _ _ hfst
    cases hres : (fetchFresh env city (normalizedCity toLowerCase city)
        (c.get (normalizedCity toLowerCase city) env.tGet).2).result with
    | ok r =>
      obtain ⟨location, current, weatherCurrent, hff⟩ :=
        fetchFresh_of_complete env city (normalizedCity toLowerCase city)
          (c.get (normalizedCity toLowerCase city) env.tGet).2
          (fetchFresh_ok_complete _ _ _ _ r hres)
      rw [getAqiByCity_miss_ok _ _ _ _ r hfst hres, hff]
      simp only
      rw [Store.lookup_set_ne _ _ _ _ _ h, hsnd, Store.lookup_filter_ne c _ _ h]
    | error e =>
      rw [getAqiByCity_miss_error _ _ _ _ e hfst hres]
      simp only
      rw [fetchFresh_cache_of_error _ _ _ _ e hres, hsnd, Store.lookup_filter_ne c _ _ h]

/-! ## The claims on the cache key and on cache writes -/

/-- C11: `Paris` and `Paris, France` derive the same geocoding query but different cache
keys (the key is the whole input, lower-cased and trimmed). So when `Paris, France` had no
live entry before, it has none after a successful lookup of `Paris` either: its lookup, at
any clock reading and so also within the TTL of the first, is a cache miss that calls the
geocoder and, when the upstream calls succeed, calls all three and returns `source: "api"`.
The two hypotheses on `toLowerCase` state what the runtime does on these two strings. -/
theorem punctuation_splits_cache_entries (toLowerCase : String → String) (env1 env2 : Env)
    (c : Store) (r1 : AqiReading)
    (hlower1 : toLowerCase "Paris" = "paris")
    (hlower2 : toLowerCase "Paris, France" = "paris, france")
    (hfirst : (getAqiByCity toLowerCase env1 (.string "Paris") c).result = .ok r1)
    (hfresh : CacheMiss toLowerCase env2 "Paris, France" c) :
    cityName "Paris" = cityName "Paris, France" ∧
    normalizedCity toLowerCase "Paris" ≠ normalizedCity toLowerCase "Paris, France" ∧
    (∃ entry, (getAqiByCity toLowerCase env1 (.string "Paris") c).cache.lookup
        (normalizedCity toLowerCase "Paris") = some entry ∧ entry.v = r1.toMappedData) ∧
    CacheMiss toLowerCase env2 "Paris, France"
      (getAqiByCity toLowerCase env1 (.string "Paris") c).cache ∧
    Event.geocode (cityName "Paris, France") ∈
      (getAqiByCity toLowerCase env2 (.string "Paris, France")
        (getAqiByCity toLowerCase env1 (.string "Paris") c).cache).trace ∧
    (upstreamComplete env2 "Paris, France" = true →
      ∃ (r2 : AqiReading) (location : GeoLocation),
        (getAqiByCity toLowerCase env2 (.string "Paris, France")
          (getAqiByCity toLowerCase env1 (.string "Paris") c).cache).result = .ok r2 ∧
        r2.source = "api" ∧
        (getAqiByCity toLowerCase env2 (.string "Paris, France")
          (getAqiByCity toLowerCase env1 (.string "Paris") c).cache).trace =
            [.cacheGet (normalizedCity toLowerCase "Paris, France"),
              .geocode (cityName "Paris, France"),
              .airQuality location.latitude location.longitude,
              .weather location.latitude location.longitude,
              .cacheSet (normalizedCity toLowerCase "Paris, France")]) := by
  have hkeys : normalizedCity toLowerCase "Paris, France" ≠ normalizedCity toLowerCase "Paris" := by
    unfold normalizedCity
    rw [hlower1, hlower2]
    decide
  have hmiss : CacheMiss toLowerCase env2 "Paris, France"
      (getAqiByCity toLowerCase env1 (.string "Paris") c).cache := by
    unfold CacheMiss at hfresh ⊢
    rw [Store.get_fst_congr c _ _ _ (getAqiByCity_lookup_other toLowerCase env1 "Paris" c _ hkeys)]
    exact hfresh
  refine ⟨by decide, fun h => hkeys h.symm, ?_, hmiss, ?_, ?_⟩
  · cases hfst : (c.get (normalizedCity toLowerCase "Paris") env1.tGet).1 with
    | some v =>
      obtain ⟨-, entry, hfind, -, hv⟩ := Store.get_hit c _ _ v hfst
      rw [getAqiByCity_hit _ _ _ _ v hfst] at hfirst ⊢
      simp only [Except.ok.injEq] at hfirst
      exact ⟨entry, hfind, by rw [hv, ← hfirst]⟩
    | none =>
      cases hres : (fetchFresh env1 "Paris" (normalizedCity toLowerCase "Paris")
          (c.get (normalizedCity toLowerCase "Paris") env1.tGet).2).result with
      | error e =>
        rw [getAqiByCity_miss_error _ _ _ _ e hfst hres] at hfirst
        simp at hfirst
      | ok r =>
        obtain ⟨location, current, weatherCurrent, hff⟩ :=
          fetchFresh_of_complete env1 "Paris" (normalizedCity toLowerCase "Paris")
            (c.get (normalizedCity toLowerCase "Paris") env1.tGet).2
            (fetchFresh_ok_complete _ _ _ _ r hres)
        rw [getAqiByCity_miss_ok _ _ _ _ r hfst hres] at hfirst ⊢
        simp only [Except.ok.injEq] at hfirst
        rw [hff] at hres ⊢
        simp only [Except.ok.injEq] at hres
        exact ⟨_, Store.lookup_set _ _ _ _, by rw [← hfirst, ← hres]⟩
  · cases hres : (fetchFresh env2 "Paris, France" (normalizedCity toLowerCase "Paris, France")
        ((getAqiByCity toLowerCase env1 (.string "Paris") c).cache.get
          (normalizedCity toLowerCase "Paris, France") env2.tGet).2).result with
    | ok r =>
      rw [getAqiByCity_miss_ok _ _ _ _ r hmiss hres]
      exact List.mem_cons_of_mem _ (geocode_mem_fetchFresh _ _ _ _)
    | error e =>
      rw [getAqiByCity_miss_error _ _ _ _ e hmiss hres]
      exact List.mem_cons_of_mem _ (geocode_mem_fetchFresh _ _ _ _)
  · intro hu
    obtain ⟨location, current, weatherCurrent, hff⟩ :=
      fetchFresh_of_complete env2 "Paris, France" (normalizedCity toLowerCase "Paris, France")
        ((getAqiByCity toLowerCase env1 (.string "Paris") c).cache.get
          (normalizedCity toLowerCase "Paris, France") env2.tGet).2 hu
    rw [getAqiByCity_miss_ok _ _ _ _ _ hmiss (by rw [hff]), hff]
    exact ⟨_, location, rfl, rfl, rfl⟩

/-- Witness for C11: `Paris` is fetched into an empty cache, and `Paris, France` is looked up
one second after the cache write; the second lookup is fetched from upstream again. -/
theorem punctuation_splits_cache_entries_witness :
    asciiLower "Paris" = "paris" ∧ asciiLower "Paris, France" = "paris, france" ∧
    CacheMiss asciiLower { london with tGet := london.tSet + 1000 } "Paris, France" [] ∧
    ∃ r2, (getAqiByCity asciiLower { london with tGet := london.tSet + 1000 }
        (.string "Paris, France")
        (getAqiByCity asciiLower london (.string "Paris") []).cache).result = .ok r2 ∧
      r2.source = "api" := by
  have h1 : asciiLower "Paris" = "paris" := by decide
  have h2 : asciiLower "Paris, France" = "paris, france" := by decide
  have hfresh : CacheMiss asciiLower { london with tGet := london.tSet + 1000 }
      "Paris, France" [] := rfl
  obtain ⟨r2, -, hr, hsrc, -⟩ :=
    (punctuation_splits_cache_entries asciiLower london
      { london with tGet := london.tSet + 1000 } []
      { toMappedData := londonRecord, source := "api" } h1 h2 rfl hfresh).2.2.2.2.2 rfl
  exact ⟨h1, h2, hfresh, r2, hr, hsrc⟩

/-- C12 as stated fails: with an expired entry stored under `paris` and the geocoder
rejecting, the lookup of `Paris` fails and the cache afterwards is not the cache before (the
expired entry is gone). -/
theorem failed_lookup_drops_expired_entry :
    (∃ e, (getAqiByCity asciiLower
        { failing (JsError.ofMessage "Network Error") with tGet := 7200001 }
        (.string "Paris") [("paris", { v := londonRecord, t := 3600000 })]).result = .error e) ∧
    (getAqiByCity asciiLower { failing (JsError.ofMessage "Network Error") with tGet := 7200001 }
      (.string "Paris") [("paris", { v := londonRecord, t := 3600000 })]).cache = [] ∧
    (getAqiByCity asciiLower { failing (JsError.ofMessage "Network Error") with tGet := 7200001 }
      (.string "Paris") [("paris", { v := londonRecord, t := 3600000 })]).cache ≠
        [("paris", { v := londonRecord, t := 3600000 })] := by
  have hcache : (getAqiByCity asciiLower
      { failing (JsError.ofMessage "Network Error") with tGet := 7200001 }
      (.string "Paris") [("paris", { v := londonRecord, t := 3600000 })]).cache = [] := by
    decide
  refine ⟨⟨JsError.ofMessage "Failed to fetch AQI data", rfl⟩, hcache, ?_⟩
  rw [hcache]
  exact List.noConfusion

theorem upstreamComplete_of_failureCause (env : Env) (city : String)
    (h : FailureCause env city) : upstreamComplete env city = false := by
  unfold upstreamComplete
  rcases h with ⟨e, h⟩ | h | ⟨location, rest, hgeo, ⟨e, h⟩ | ⟨data, e, h1, h2⟩⟩
  · simp [h]
  · unfold noResults at h
    repeat' split at h
    all_goals simp_all
  · simp [hgeo, h]
  · simp [hgeo, h1, h2]

/-- C12, amended: a lookup that misses the cache and meets one of the listed upstream
failures raises an error. Every failed lookup returns no record, performs no cache write and
leaves the entry of every other key as it was; under its own key no entry is stored
afterwards: the cache is the former cache without the entry of that key (an expired entry
still stored there is dropped by the cache read), and it is exactly the former cache when
none was stored. -/
theorem failed_lookup_writes_nothing (toLowerCase : String → String) (env : Env)
    (city : String) (c : Store) :
    (CacheMiss toLowerCase env city c → FailureCause env city →
      ∃ e, (getAqiByCity toLowerCase env (.string city) c).result = .error e) ∧
    (∀ e, (getAqiByCity toLowerCase env (.string city) c).result = .error e →
      (∀ key, Event.cacheSet key ∉ (getAqiByCity toLowerCase env (.string city) c).trace) ∧
      (∀ other, other ≠ normalizedCity toLowerCase city →
        (getAqiByCity toLowerCase env (.string city) c).cache.lookup other = c.lookup other) ∧
      (getAqiByCity toLowerCase env (.string city) c).cache.lookup
        (normalizedCity toLowerCase city) = none ∧
      (getAqiByCity toLowerCase env (.string city) c).cache =
        c.filter (fun p => p.1 != normalizedCity toLowerCase city) ∧
      (c.lookup (normalizedCity toLowerCase city) = none →
        (getAqiByCity toLowerCase env (.string city) c).cache = c)) := by
  constructor
  · intro hmiss hcause
    have hu := upstreamComplete_of_failureCause env city hcause
    cases hres : (fetchFresh env city (normalizedCity toLowerCase city)
        (c.get (normalizedCity toLowerCase city) env.tGet).2).result with
    | ok r =>
      rw [fetchFresh_ok_complete _ _ _ _ r hres] at hu
      exact absurd hu (by decide)
    | error e1 =>
      exact ⟨_, by rw [getAqiByCity_miss_error _ _ _ _ e1 hmiss hres]⟩
  · intro e he
    obtain ⟨hmiss, e1, hres, hcache, htrace⟩ := getAqiByCity_of_error toLowerCase env city c e he
    have hfilter : (getAqiByCity toLowerCase env (.string city) c).cache =
        c.filter (fun p => p.1 != normalizedCity toLowerCase city) := by
      rw [hcache, Store.get_snd_of_miss c _ _ hmiss]
    refine ⟨?_, fun other h => getAqiByCity_lookup_other toLowerCase env city c other h, ?_,
      hfilter, fun hnone => ?_⟩
    · intro key hmem
      rw [htrace] at hmem
      simp only [List.mem_cons, reduceCtorEq, false_or] at hmem
      exact cacheSet_not_mem_fetchFresh_of_error _ _ _ _ e1 hres key hmem
    · rw [hfilter, Store.lookup_filter_self]
    · rw [hfilter, Store.filter_of_lookup_none c _ hnone]

/-- Witness for C12 (amended): the air-quality call succeeds and the weather call is
rejected; the lookup of `London` fails and the empty cache stays empty. -/
theorem failed_lookup_writes_nothing_witness :
    CacheMiss asciiLower
      { london with weather := fun _ _ => .rejected (JsError.ofMessage "Network Error") }
      "London" [] ∧
    FailureCause
      { london with weather := fun _ _ => .rejected (JsError.ofMessage "Network Error") }
      "London" ∧
    (∃ e, (getAqiByCity asciiLower
      { london with weather := fun _ _ => .rejected (JsError.ofMessage "Network Error") }
      (.string "London") []).result = .error e) ∧
    (getAqiByCity asciiLower
      { london with weather := fun _ _ => .rejected (JsError.ofMessage "Network Error") }
      (.string "London") []).cache = [] := by
  have hmiss : CacheMiss asciiLower
      { london with weather := fun _ _ => .rejected (JsError.ofMessage "Network Error") }
      "London" [] := rfl
  have hcause : FailureCause
      { london with weather := fun _ _ => .rejected (JsError.ofMessage "Network Error") }
      "London" :=
    Or.inr (Or.inr ⟨_, _, rfl, Or.inr ⟨_, _, rfl, rfl⟩⟩)
  have h := failed_lookup_writes_nothing asciiLower
    { london with weather := fun _ _ => .rejected (JsError.ofMessage "Network Error") }
    "London" []
  obtain ⟨e, he⟩ := h.1 hmiss hcause
  exact ⟨hmiss, hcause, ⟨e, he⟩, (h.2 e he).2.2.2.2 rfl⟩

/-- C13: a successful cache-miss lookup stores, under the normalized form of its input, the
returned record without the `source` field (a stored value has no such field), with a
lifetime counted from the write, and leaves the entry of every other key as it was; the
returned record is tagged `source: "api"`, and a later read of that key within the lifetime
returns the stored record tagged `source: "cache"`. -/
theorem fresh_lookup_writes_one_key (toLowerCase : String → String) (env : Env)
    (city : String) (c : Store) (r : AqiReading)
    (hmiss : CacheMiss toLowerCase env city c)
    (hok : (getAqiByCity toLowerCase env (.string city) c).result = .ok r) :
    r.source = "api" ∧
    (getAqiByCity toLowerCase env (.string city) c).cache.lookup
      (normalizedCity toLowerCase city) =
        some { v := r.toMappedData, t := env.tSet + 3600 * 1000 } ∧
    (∀ other, other ≠ normalizedCity toLowerCase city →
      (getAqiByCity toLowerCase env (.string city) c).cache.lookup other = c.lookup other) ∧
    (∀ key, Event.cacheSet key ∈ (getAqiByCity toLowerCase env (.string city) c).trace →
      key = normalizedCity toLowerCase city) ∧
    (∀ env2 : Env, env2.tGet ≤ env.tSet + 3600 * 1000 →
      (getAqiByCity toLowerCase env2 (.string city)
        (getAqiByCity toLowerCase env (.string city) c).cache).result =
          .ok { toMappedData := r.toMappedData, source := "cache" }) := by
  cases hres : (fetchFresh env city (normalizedCity toLowerCase city)
      (c.get (normalizedCity toLowerCase city) env.tGet).2).result with
  | error e =>
    rw [getAqiByCity_miss_error _ _ _ _ e hmiss hres] at hok
    simp at hok
  | ok r1 =>
    obtain ⟨location, current, weatherCurrent, hff⟩ :=
      fetchFresh_of_complete env city (normalizedCity toLowerCase city)
        (c.get (normalizedCity toLowerCase city) env.tGet).2
        (fetchFresh_ok_complete _ _ _ _ r1 hres)
    have hother := getAqiByCity_lookup_other toLowerCase env city c
    rw [getAqiByCity_miss_ok _ _ _ _ r1 hmiss hres] at hok hother ⊢
    simp only [Except.ok.injEq] at hok
    subst hok
    rw [hff] at hres hother ⊢
    simp only [Except.ok.injEq] at hres
    subst hres
    refine ⟨rfl, Store.lookup_set _ _ _ _, hother, ?_, ?_⟩
    · intro key hmem
      simpa using hmem
    · intro env2 hwithin
      have hlive := Store.get_live
        ((c.get (normalizedCity toLowerCase city) env.tGet).2.set (normalizedCity toLowerCase city)
          (mappedOf location current weatherCurrent env.tMerge) env.tSet)
        (normalizedCity toLowerCase city) env2.tGet _ (Store.lookup_set _ _ _ _)
        (by simpa [stdTTL] using hwithin)
      rw [getAqiByCity_hit toLowerCase env2 city _
        (mappedOf location current weatherCurrent env.tMerge) (by rw [hlive])]

/-- Witness for C13: the London lookup on a cache that holds an entry for `paris` stores the
London record under `london` and leaves the entry of `paris` as it was. -/
theorem fresh_lookup_writes_one_key_witness :
    CacheMiss asciiLower london "London" [("paris", { v := londonRecord, t := 5 })] ∧
    (getAqiByCity asciiLower london (.string "London")
      [("paris", { v := londonRecord, t := 5 })]).cache.lookup "london" =
        some { v := londonRecord, t := london.tSet + 3600 * 1000 } ∧
    (getAqiByCity asciiLower london (.string "London")
      [("paris", { v := londonRecord, t := 5 })]).cache.lookup "paris" =
        some { v := londonRecord, t := 5 } := by
  have hmiss : CacheMiss asciiLower london "London"
      [("paris", { v := londonRecord, t := 5 })] := by
    unfold CacheMiss
    decide
  have h := fresh_lookup_writes_one_key asciiLower london "London"
    [("paris", { v := londonRecord, t := 5 })]
    { toMappedData := londonRecord, source := "api" } hmiss rfl
  have hkey : normalizedCity asciiLower "London" = "london" := by decide
  refine ⟨hmiss, ?_, ?_⟩
  · have h2 := h.2.1
    rw [hkey] at h2
    exact h2
  · have h3 := h.2.2.1 "paris" (by rw [hkey]; decide)
    rw [h3]
    rfl

/-! ## Lemmas on `toFixed` -/

theorem isDigit_digitChar (k : Nat) (h : k < 10) : (Nat.digitChar k).isDigit = true := by
  revert k
  decide

theorem isDigit_of_mem_toDigitsCore (fuel n : Nat) (ds : List Char)
    (hds : ∀ c ∈ ds, c.isDigit = true) :
    ∀ c ∈ Nat.toDigitsCore 10 fuel n ds, c.isDigit = true := by
  induction fuel generalizing n ds with
  | zero => simpa [Nat.toDigitsCore] using hds
  | succ fuel ih =>
    have hcons : ∀ c ∈ Nat.digitChar (n % 10) :: ds, c.isDigit = true := by
      intro c hc
      rcases List.mem_cons.mp hc with rfl | hc
      · exact isDigit_digitChar _ (Nat.mod_lt _ (by decide))
      · exact hds c hc
    unfold Nat.toDigitsCore
    dsimp only
    split
    · exact hcons
    · exact ih _ _ hcons

theorem isDigit_of_mem_toDigits (n : Nat) : ∀ c ∈ Nat.toDigits 10 n, c.isDigit = true :=
  isDigit_of_mem_toDigitsCore _ _ [] (by simp)

/-- Every character of a `toFixed` text is a digit, the sign or the point. -/
theorem mem_toFixed (x : Rat) (fractionDigits : Nat) (c : Char)
    (h : c ∈ (toFixed x fractionDigits).data) : c.isDigit = true ∨ c = '-' ∨ c = '.' := by
  have hm : ∀ c ∈ List.replicate (fractionDigits + 1 -
      (Nat.toDigits 10 ((2 * x.num.natAbs * 10 ^ fractionDigits + x.den) / (2 * x.den))).length)
        '0' ++ Nat.toDigits 10 ((2 * x.num.natAbs * 10 ^ fractionDigits + x.den) / (2 * x.den)),
      c.isDigit = true := by
    intro c hc
    rcases List.mem_append.mp hc with hc | hc
    · rw [(List.mem_replicate.mp hc).2]
      decide
    · exact isDigit_of_mem_toDigits _ c hc
  simp only [toFixed, List.mem_append] at h
  rcases h with (h | h) | h
  · split at h
    · right; left; simpa using h
    · simp at h
  · exact Or.inl (hm c (List.mem_of_mem_take h))
  · split at h
    · simp at h
    · rcases List.mem_cons.mp h with rfl | h
      · right; right; rfl
      · exact Or.inl (hm c (List.mem_of_mem_drop h))

theorem toFixed_ne_notAvailable (x : Rat) (fractionDigits : Nat) :
    toFixed x fractionDigits ≠ "N/A" := by
  intro h
  have hN : 'N' ∈ (toFixed x fractionDigits).data := by
    rw [h]
    decide
  rcases mem_toFixed x fractionDigits 'N' hN with h1 | h1 | h1
  · exact absurd h1 (by decide)
  · exact absurd h1 (by decide)
  · exact absurd h1 (by decide)

/-! ## The claims on `AqiCard` -/

/-- C14: the `parameters` list shows the six values `iaqi.pm25`, `iaqi.pm10`, `iaqi.o3`,
`iaqi.no2`, `iaqi.co`, `iaqi.t`; for every entry the text is `N/A` exactly when the
parameter object is absent or its `v` is `null` or `undefined`; a numeric `v` is rendered by
`toFixed`, whose text is never `N/A`, and a `v` of 0 is rendered as `0.0`. -/
theorem parameterText_notAvailable (iaqi : CardIaqi) (param : Parameter) :
    (parameters iaqi).map (fun p => (p.label, p.value)) =
      [("PM2.5", iaqi.pm25), ("PM10", iaqi.pm10), ("O₃", iaqi.o3), ("NO₂", iaqi.no2),
        ("CO", iaqi.co), ("Temperature", iaqi.t)] ∧
    (parameterText param = .ok "N/A" ↔
      (param.value = none ∨
        ∃ value, param.value = some value ∧ (value.v = .null ∨ value.v = .undefined))) ∧
    (∀ value x, param.value = some value → value.v = .number x →
      parameterText param = .ok (toFixed x (decimalsOrOne param.decimals)) ∧
      toFixed x (decimalsOrOne param.decimals) ≠ "N/A") ∧
    (∀ p ∈ parameters iaqi, p.value = some { v := .number 0 } →
      parameterText p = .ok "0.0") := by
  refine ⟨rfl, ?_, ?_, ?_⟩
  · unfold parameterText
    cases hv : param.value with
    | none => simp
    | some value =>
      cases hvv : value.v with
      | undefined => simp [hvv]
      | null => simp [hvv]
      | number x => simpa [hvv] using toFixed_ne_notAvailable x _
      | string s => simp [hvv]
  · intro value x hv hvv
    exact ⟨by simp [parameterText, hv, hvv], toFixed_ne_notAvailable x _⟩
  · have hzero : toFixed 0 1 = "0.0" := by decide
    intro p hp hv
    simp only [parameters, List.mem_cons, List.mem_singleton, List.not_mem_nil, or_false] at hp
    rcases hp with rfl | rfl | rfl | rfl | rfl | rfl <;>
      · simp only at hv
        simp only [parameterText, hv, decimalsOrOne, hzero]

/-- C15, the code as it is: the CO entry declares `decimals: 0`, but `param.decimals || 1`
takes 0 for missing, so a CO value of 300 is shown as `300.0`, with one fractional digit,
where rendering with the declared 0 digits gives `300`. -/
theorem co_rendered_with_one_fraction_digit :
    (parameters ⟨none, none, none, none, some { v := .number 300 }, none⟩).map
        (fun p => (p.label, p.decimals, (parameterText p).toOption)) =
      [("PM2.5", none, some "N/A"), ("PM10", none, some "N/A"), ("O₃", none, some "N/A"),
        ("NO₂", none, some "N/A"), ("CO", some 0, some "300.0"),
        ("Temperature", none, some "N/A")] ∧
    decimalsOrOne (some 0) = 1 ∧
    fractionDigitsOf "300.0" = 1 ∧
    toFixed 300 0 = "300" ∧ fractionDigitsOf (toFixed 300 0) = 0 := by
  refine ⟨?_, rfl, by decide, by decide, by decide⟩
  have h : toFixed 300 1 = "300.0" := by decide
  simp only [parameters, List.map, parameterText, decimalsOrOne, h, Except.toOption]

/-- C18: for every integer `aqi` the status is `Good` exactly up to 50, `Moderate` exactly
in 51..100, `Unhealthy for Sensitive Groups` in 101..150, `Unhealthy` in 151..200,
`Very Unhealthy` in 201..300 and `Hazardous` above 300; and two integers have the same
status exactly when they have the same colour class. -/
theorem getAqiStatus_bands (aqi other : Int) :
    (getAqiStatus aqi = "Good" ↔ aqi ≤ 50) ∧
    (getAqiStatus aqi = "Moderate" ↔ 50 < aqi ∧ aqi ≤ 100) ∧
    (getAqiStatus aqi = "Unhealthy for Sensitive Groups" ↔ 100 < aqi ∧ aqi ≤ 150) ∧
    (getAqiStatus aqi = "Unhealthy" ↔ 150 < aqi ∧ aqi ≤ 200) ∧
    (getAqiStatus aqi = "Very Unhealthy" ↔ 200 < aqi ∧ aqi ≤ 300) ∧
    (getAqiStatus aqi = "Hazardous" ↔ 300 < aqi) ∧
    (getAqiStatus aqi = getAqiStatus other ↔ getAqiColor aqi = getAqiColor other) := by
  unfold getAqiStatus getAqiColor
  refine ⟨?_, ?_, ?_, ?_, ?_, ?_, ?_⟩
  all_goals split_ifs
  all_goals simp only [String.reduceEq, iff_true, iff_false, true_iff, false_iff, not_and,
    not_le, not_lt, not_true_eq_false, not_false_eq_true, eq_self_iff_true]
  all_goals omega

/-! ## Lemmas on ASCII letters and on `getCountryFlag` -/

theorem toNat_of_isAlpha (c : Char) (h : c.isAlpha = true) :
    (65 ≤ c.toNat ∧ c.toNat ≤ 90) ∨ (97 ≤ c.toNat ∧ c.toNat ≤ 122) := by
  simp only [Char.isAlpha, Char.isUpper, Char.isLower, Bool.or_eq_true, Bool.and_eq_true,
    decide_eq_true_eq, ge_iff_le] at h
  exact h

theorem mem_asciiLetters (c : Char) (h : c.isAlpha = true) : c ∈ asciiLetters := by
  have hb := toNat_of_isAlpha c h
  have hc : c = Char.ofNat c.toNat := (Char.ofNat_toNat c).symm
  generalize c.toNat = n at hb hc
  subst hc
  rcases hb with ⟨h1, h2⟩ | ⟨h1, h2⟩ <;> interval_cases n <;> decide

theorem letter_facts (c : Char) (h : c.isAlpha = true) :
    c.toNat < 0x10000 ∧ c.toUpper.toNat < 0x10000 ∧
    c.toUpper.isAlpha = true ∧ c.toLower.isAlpha = true ∧
    alphabetPosition c < 26 ∧
    127397 + c.toUpper.toNat = 0x1F1E6 + alphabetPosition c ∧
    (Char.ofNat (0x1F1E6 + alphabetPosition c)).toNat = 0x1F1E6 + alphabetPosition c ∧
    alphabetPosition c.toUpper = alphabetPosition c ∧
    alphabetPosition c.toLower = alphabetPosition c := by
  have hall : ∀ c ∈ asciiLetters,
      c.toNat < 0x10000 ∧ c.toUpper.toNat < 0x10000 ∧
      c.toUpper.isAlpha = true ∧ c.toLower.isAlpha = true ∧
      alphabetPosition c < 26 ∧
      127397 + c.toUpper.toNat = 0x1F1E6 + alphabetPosition c ∧
      (Char.ofNat (0x1F1E6 + alphabetPosition c)).toNat = 0x1F1E6 + alphabetPosition c ∧
      alphabetPosition c.toUpper = alphabetPosition c ∧
      alphabetPosition c.toLower = alphabetPosition c := by
    decide
  exact hall c (mem_asciiLetters c h)

theorem getCountryFlag_letters (toUpperCase : String → String)
    (hupper : UpperOnLetters toUpperCase) (a b : Char)
    (ha : a.isAlpha = true) (hb : b.isAlpha = true) :
    getCountryFlag toUpperCase (some ⟨[a, b]⟩) =
      ⟨[Char.ofNat (0x1F1E6 + alphabetPosition a), Char.ofNat (0x1F1E6 + alphabetPosition b)]⟩ := by
  obtain ⟨ha1, ha2, -, -, -, ha3, -⟩ := letter_facts a ha
  obtain ⟨hb1, hb2, -, -, -, hb3, -⟩ := letter_facts b hb
  have hup : toUpperCase ⟨[a, b]⟩ = ⟨[a.toUpper, b.toUpper]⟩ := by
    rw [hupper ⟨[a, b]⟩ (by
      intro c hc
      simp only [List.mem_cons, List.mem_singleton, List.not_mem_nil, or_false] at hc
      rcases hc with rfl | rfl <;> assumption)]
    rfl
  have hne : (⟨[a, b]⟩ : String) ≠ "" := by
    intro h
    have := congrArg String.data h
    simp at this
  simp only [getCountryFlag, hne, hup, utf16Units, List.foldr, ha1, hb1, ha2, hb2, ↓reduceIte,
    List.length_cons, List.length_nil, ne_eq, not_true_eq_false, or_self, List.map, fromCodePoint,
    ha3, hb3]

/-! ## The claims on `SearchBox` -/

/-- C19: for a code of two ASCII letters `getCountryFlag` returns two code points, the i-th
being U+1F1E6 plus the alphabet position (0..25) of the i-th letter, hence a regional
indicator in U+1F1E6..U+1F1FF, and the upper-case and the lower-case spelling of the code
give that same result; a missing code, the empty code and every code whose length (in UTF-16
units) is not 2 give the globe. The hypothesis states what the runtime's `toUpperCase` does
on ASCII letters. -/
theorem getCountryFlag_regional_indicators (toUpperCase : String → String) (a b : Char)
    (hupper : UpperOnLetters toUpperCase)
    (ha : a.isAlpha = true) (hb : b.isAlpha = true) :
    getCountryFlag toUpperCase (some ⟨[a, b]⟩) =
      ⟨[Char.ofNat (0x1F1E6 + alphabetPosition a),
        Char.ofNat (0x1F1E6 + alphabetPosition b)]⟩ ∧
    (getCountryFlag toUpperCase (some ⟨[a, b]⟩)).data.map Char.toNat =
      [0x1F1E6 + alphabetPosition a, 0x1F1E6 + alphabetPosition b] ∧
    alphabetPosition a < 26 ∧ alphabetPosition b < 26 ∧
    (∀ n ∈ (getCountryFlag toUpperCase (some ⟨[a, b]⟩)).data.map Char.toNat,
      0x1F1E6 ≤ n ∧ n ≤ 0x1F1FF) ∧
    getCountryFlag toUpperCase (some ⟨[a.toUpper, b.toUpper]⟩) =
      getCountryFlag toUpperCase (some ⟨[a, b]⟩) ∧
    getCountryFlag toUpperCase (some ⟨[a.toLower, b.toLower]⟩) =
      getCountryFlag toUpperCase (some ⟨[a, b]⟩) ∧
    getCountryFlag toUpperCase none = "🌍" ∧
    getCountryFlag toUpperCase (some "") = "🌍" ∧
    (∀ code : String, (utf16Units code).length ≠ 2 →
      getCountryFlag toUpperCase (some code) = "🌍") := by
  obtain ⟨-, -, hau, hal, hapos, -, hanat, hapu, hapl⟩ := letter_facts a ha
  obtain ⟨-, -, hbu, hbl, hbpos, -, hbnat, hbpu, hbpl⟩ := letter_facts b hb
  have hmain := getCountryFlag_letters toUpperCase hupper a b ha hb
  have hnats : (getCountryFlag toUpperCase (some ⟨[a, b]⟩)).data.map Char.toNat =
      [0x1F1E6 + alphabetPosition a, 0x1F1E6 + alphabetPosition b] := by
    rw [hmain]
    simp only [List.map, hanat, hbnat]
  refine ⟨hmain, hnats, hapos, hbpos, ?_, ?_, ?_, rfl, rfl, ?_⟩
  · intro n hn
    rw [hnats] at hn
    simp only [List.mem_cons, List.mem_singleton, List.not_mem_nil, or_false] at hn
    rcases hn with rfl | rfl <;> omega
  · rw [getCountryFlag_letters toUpperCase hupper _ _ hau hbu, hmain, hapu, hbpu]
  · rw [getCountryFlag_letters toUpperCase hupper _ _ hal hbl, hmain, hapl, hbpl]
  · intro code hlen
    simp [getCountryFlag, hlen]

/-- Witness for C19: `gb` and `GB` both give the two regional indicators G and B. -/
theorem getCountryFlag_regional_indicators_witness :
    UpperOnLetters asciiUpper ∧ ('g').isAlpha = true ∧ ('b').isAlpha = true ∧
    getCountryFlag asciiUpper (some "gb") = "🇬🇧" ∧
    getCountryFlag asciiUpper (some "GB") = getCountryFlag asciiUpper (some "gb") := by
  have hupper : UpperOnLetters asciiUpper := fun _ _ => rfl
  have h := getCountryFlag_regional_indicators asciiUpper 'g' 'b' hupper (by decide) (by decide)
  refine ⟨hupper, by decide, by decide, ?_, ?_⟩
  · rw [show ("gb" : String) = ⟨['g', 'b']⟩ from rfl, h.1]
    decide
  · exact h.2.2.2.2.2.1

theorem takeWhile_ne_append_cons (c : Char) (l r : List Char) (h : c ∉ l) :
    (l ++ c :: r).takeWhile (fun x => x != c) = l := by
  induction l with
  | nil => simp [List.takeWhile_cons]
  | cons x l ih =>
    have hx : x ≠ c := fun hxc => h (hxc ▸ List.mem_cons_self _ _)
    have hl : c ∉ l := fun hc => h (List.mem_cons_of_mem _ hc)
    simp [List.takeWhile_cons, hx, ih hl]

theorem buildFullName_data (result : SuggestResult) :
    ∃ rest, (buildFullName result).data = result.name.data ++ ',' :: rest := by
  unfold buildFullName
  cases result.admin1 with
  | none => exact ⟨_, by simp [String.data_append]; rfl⟩
  | some admin1 =>
    by_cases h : admin1 ≠ "" ∧ admin1 ≠ result.name
    · exact ⟨_, by simp only [if_pos h, String.data_append, List.append_assoc]; rfl⟩
    · exact ⟨_, by simp only [if_neg h, String.data_append, List.append_assoc]; rfl⟩

/-- C17: for a geocoder result whose name contains no `,` and no `(`, whatever its `admin1`
and country, the suggestion built from it is searched by its `fullName`, and the server's
geocoding query derived from that `fullName` is the trimmed name; for each of the ten
popular cities the derived query is the city's name. -/
theorem selected_suggestion_geocodes_by_name (toUpperCase : String → String)
    (result : SuggestResult) (hcomma : ',' ∉ result.name.data)
    (hparen : '(' ∉ result.name.data) :
    searchQuery (toCityItem toUpperCase result) = buildFullName result ∧
    cityName (searchQuery (toCityItem toUpperCase result)) = jsTrim result.name ∧
    (∀ item ∈ popularCities,
      cityName (searchQuery item) = jsTrim item.name ∧ jsTrim item.name = item.name) := by
  obtain ⟨rest, hdata⟩ := buildFullName_data result
  have hquery : searchQuery (toCityItem toUpperCase result) = buildFullName result := by
    have hne : buildFullName result ≠ "" := by
      intro h
      rw [h] at hdata
      simp at hdata
    simp [searchQuery, toCityItem, hne]
  refine ⟨hquery, ?_, by decide⟩
  rw [hquery]
  have hhead : splitHead ',' (buildFullName result) = result.name := by
    unfold splitHead
    rw [hdata, takeWhile_ne_append_cons ',' _ _ hcomma]
  have hparen2 : (trimChars result.name.data).takeWhile (fun c => c != '(') =
      trimChars result.name.data := by
    rw [List.takeWhile_eq_self_iff]
    intro x hx
    have : x ≠ '(' := fun h => hparen (h ▸ mem_trimChars hx)
    simpa using this
  show jsTrim (splitHead '(' (jsTrim (splitHead ',' (buildFullName result)))) = jsTrim result.name
  rw [hhead]
  simp only [jsTrim, splitHead, hparen2, trimChars_idem]

/-- Witness for C17: the London result with `admin1` England is searched as
`London, England, United Kingdom` and geocoded as `London`. -/
theorem selected_suggestion_geocodes_by_name_witness :
    ',' ∉ londonResult.name.data ∧ '(' ∉ londonResult.name.data ∧
    searchQuery (toCityItem asciiUpper londonResult) = "London, England, United Kingdom" ∧
    cityName (searchQuery (toCityItem asciiUpper londonResult)) = "London" := by
  have hcomma : ',' ∉ londonResult.name.data := by decide
  have hparen : '(' ∉ londonResult.name.data := by decide
  have h := selected_suggestion_geocodes_by_name asciiUpper londonResult hcomma hparen
  refine ⟨hcomma, hparen, ?_, ?_⟩
  · rw [h.1]
    decide
  · rw [h.2.1]
    decide

/-- C16, the code as it is: after focus, typing `Lon`, the debounce timer firing, three
ArrowDown presses on the popular cities and the arrival of a response with one result, the
state has `selectedIndex` 2 with a single suggestion, so the index is neither -1 nor valid;
`suggestions[selectedIndex]` is `undefined`, and Enter calls `handleCitySelect` with it,
which throws on reading `fullName`. -/
theorem stale_selectedIndex_after_response :
    ∃ state, SearchState.initial.run asciiLower asciiUpper staleIndexEvents = .ok state ∧
      state.selectedIndex = 2 ∧ state.suggestions.length = 1 ∧ state.showDropdown = true ∧
      ¬ state.IndexValid ∧
      itemAt state.suggestions state.selectedIndex = none ∧
      state.step asciiLower asciiUpper (.keyDown "Enter") =
        .error (cannotRead "undefined" "fullName") := by
  refine ⟨_, rfl, rfl, rfl, rfl, ?_, rfl, rfl⟩
  unfold SearchState.IndexValid
  decide

end AirQuality
